import Mathlib

/-!
# LayerBuffer: a surface and its buffer / overlay source

Shallow embedding of `libs/surfaceflinger/LayerBuffer.cpp`.

* C++ objects reached through `sp<>` pointers (the `Source` objects) live in a
  store, `World.sources`; a pointer is an index into that store and the null
  pointer is `none`.
* Every method is a function from the state it reads to the state it leaves
  and runs to completion. The one place where two threads are interleaved is
  the section on the race between teardown and `onVisibilityResolved`: there
  the statements outside a lock are single steps and a block under a mutex
  is one step.
* Strong references: a source is referenced by the layer (`mSource`), by its
  overlay channel (`World.channels`) and by the `sp<>` locals of running
  methods. A method that drops what may be the last reference runs the
  destructor (`World.decStrong`).
* `size_t` and `ssize_t` are 32 bits wide, as on the ARM targets of this tree.
  Unsigned arithmetic is reduced modulo `SIZE_MOD`.
* Calls into the overlay control device are recorded, in order, in
  `World.overlayCalls`.
-/

namespace android

/-! ## Status codes and machine integers -/

/-- Status code, the `status_t` of `utils/Errors.h`: zero is success, errors are
negative errno values. -/
abbrev status_t := Int

/-- Modelled from the spec: `utils/Errors.h` is not among the sources. Success. -/
def NO_ERROR : status_t := 0
/-- Modelled from the spec: `utils/Errors.h` is not among the sources. The
initialization-failure code (InvalidHeap, NoOwner), `-ENODEV`. -/
def NO_INIT : status_t := -19
/-- Modelled from the spec: `utils/Errors.h` is not among the sources. The code
for bad arguments (InvalidDimensions), `-EINVAL`. -/
def BAD_VALUE : status_t := -22
/-- Modelled from the spec: `utils/Errors.h` is not among the sources. The code
for a call in the wrong state (AlreadyBound), `-ENOSYS`. -/
def INVALID_OPERATION : status_t := -38

/-- Width in bits of `size_t` and `ssize_t`. -/
def SIZE_BITS : Nat := 32

/-- One more than the largest `size_t`. -/
def SIZE_MOD : Nat := 2 ^ SIZE_BITS

/-- The conversion `size_t(x)` of a signed value. -/
def to_size_t (x : Int) : Nat := (x % (SIZE_MOD : Int)).toNat

/-- One more than the largest `uint32_t`. -/
def UINT32_MOD : Nat := 4294967296

/-- The conversion of a signed value to `uint32_t`. -/
def to_uint32 (x : Int) : Nat := (x % (UINT32_MOD : Int)).toNat

/-- The conversion of a `uint32_t` value to `int`: values above `INT_MAX` come
out negative. -/
def to_int (n : Nat) : Int :=
  if n % UINT32_MOD < 2147483648 then ((n % UINT32_MOD : Nat) : Int)
  else ((n % UINT32_MOD : Nat) : Int) - (UINT32_MOD : Int)

/-! ## Collaborators: heap, pixel formats, geometry -/

/-- The part of `IMemoryHeap` this file uses: `heapID()`, `base()` and `getSize()`. -/
structure IMemoryHeap where
  heapID : Int
  base : Nat
  getSize : Nat
deriving DecidableEq, Repr

/-- The descriptor `ISurface::BufferHeap`; `heap = none` is the null `sp<IMemoryHeap>`. -/
structure BufferHeap where
  w : Nat
  h : Nat
  hor_stride : Int
  ver_stride : Int
  format : Int
  transform : Nat
  flags : Nat
  heap : Option IMemoryHeap
deriving DecidableEq, Repr

/-- The part of `PixelFormatInfo` this file reads: the alpha bit range and the
scanline size for a stride. -/
structure PixelFormatInfo where
  h_alpha : Nat
  l_alpha : Nat
  getScanlineSize : Int → Nat

/-- Type of `getPixelFormatInfo(format, &info)`: the status and the filled-in info. -/
abbrev FormatLookup := Int → status_t × PixelFormatInfo

/-- A rectangle, as `Rect` of `ui/Rect.h`. -/
structure Rect where
  left : Int
  top : Int
  right : Int
  bottom : Int
deriving DecidableEq, Repr

/-- Modelled from the spec: `ui/Rect.h` is not among the sources. The method
`Rect::width()`. -/
def Rect.width (r : Rect) : Int := r.right - r.left

/-- Modelled from the spec: `ui/Rect.h` is not among the sources. The method
`Rect::height()`. -/
def Rect.height (r : Rect) : Int := r.bottom - r.top

/-! ## LayerBuffer::Buffer -/

/-- Modelled from the spec: `hardware/copybit.h` is not among the sources. The
image half of `NativeBuffer`, a `copybit_image_t`: `w`, `h` and `offset` are
`uint32_t`, `format` and `fd` are signed. -/
structure NativeImage where
  w : Nat
  h : Nat
  format : Int
  offset : Nat
  base : Nat
  fd : Int
deriving DecidableEq, Repr

/-- The struct `NativeBuffer`: an image and its crop rectangle, whose four
fields are `int`. -/
structure NativeBuffer where
  img : NativeImage
  crop : Rect
deriving DecidableEq, Repr

/-- The class `LayerBuffer::Buffer`: one posted frame. -/
structure Buffer where
  mBufferHeap : BufferHeap
  mNativeBuffer : NativeBuffer
deriving DecidableEq, Repr

/-- The constructor `LayerBuffer::Buffer::Buffer(buffers, offset)`. It dereferences
`buffers.heap`; with a null heap the two fields read from it are left zero.
Each assignment converts to the type of the field assigned: the unsigned
`w` and `h` to the `int` crop fields, the signed strides and the `ssize_t`
offset to the `uint32_t` image fields. -/
def Buffer.new (buffers : BufferHeap) (offset : Int) : Buffer :=
  { mBufferHeap := buffers
    mNativeBuffer :=
      { crop := { left := 0, top := 0, right := to_int buffers.w, bottom := to_int buffers.h }
        img :=
          { w := if buffers.hor_stride ≠ 0 then to_uint32 buffers.hor_stride else buffers.w
            h := if buffers.ver_stride ≠ 0 then to_uint32 buffers.ver_stride else buffers.h
            format := buffers.format
            offset := to_uint32 offset
            base := match buffers.heap with
              | some heap => heap.base
              | none => 0
            fd := match buffers.heap with
              | some heap => heap.heapID
              | none => 0 } } }

/-- Modelled from the spec: `Buffer::getStatus()` is an inline member of
`LayerBuffer.h`, which is not among the sources. A posted frame built over a
present heap is valid (section 4.2: on success a new PostedBuffer is
constructed and installed); over a null heap it is `NO_INIT`. -/
def Buffer.getStatus (b : Buffer) : status_t :=
  if b.mBufferHeap.heap.isSome then NO_ERROR else NO_INIT

/-! ## The layer -/

/-- The members of `LayerBuffer` and of its base class `LayerBase` that this
file reads or writes. `mSource` is the `sp<Source>`: the address of the
attached source in the store, or `none`. The two counters record the calls of
`forceVisibilityTransaction()` and `invalidate()`. -/
structure LayerBuffer where
  mSource : Option Nat
  mNeedsBlending : Bool
  mTransformed : Bool
  drawingSequence : Nat
  currentSequence : Nat
  transformedBounds : Rect
  orientation : Int
  visibilityTransactions : Nat
  invalidations : Nat
deriving DecidableEq, Repr

/-- The method `LayerBuffer::needsBlending()`. -/
def LayerBuffer.needsBlending (L : LayerBuffer) : Bool := L.mNeedsBlending

/-- The method `LayerBuffer::setNeedsBlending(blending)`. -/
def LayerBuffer.setNeedsBlending (L : LayerBuffer) (blending : Bool) : LayerBuffer :=
  { L with mNeedsBlending := blending }

/-- The method `LayerBase::forceVisibilityTransaction()`, recorded by a counter. -/
def LayerBuffer.forceVisibilityTransaction (L : LayerBuffer) : LayerBuffer :=
  { L with visibilityTransactions := L.visibilityTransactions + 1 }

/-- The method `LayerBase::invalidate()`, recorded by a counter. -/
def LayerBuffer.invalidate (L : LayerBuffer) : LayerBuffer :=
  { L with invalidations := L.invalidations + 1 }

/-- The method `LayerBuffer::getSource()`. -/
def LayerBuffer.getSource (L : LayerBuffer) : Option Nat := L.mSource

/-- The method `LayerBuffer::clearSource()`: returns the old pointer and nulls the member. -/
def LayerBuffer.clearSource (L : LayerBuffer) : Option Nat × LayerBuffer :=
  (L.mSource, { L with mSource := none })

/-! ## LayerBuffer::BufferSource -/

/-- The data members of `LayerBuffer::BufferSource`; `mBuffer = none` is the
null `sp<Buffer>`. The GL texture name is never assigned in this file and is
left out. -/
structure BufferSource where
  mStatus : status_t
  mBufferHeap : BufferHeap
  mBufferSize : Nat
  mBuffer : Option Buffer
deriving DecidableEq, Repr

/-- The descriptor a default-constructed `mBufferHeap` member holds. -/
def BufferHeap.empty : BufferHeap :=
  { w := 0, h := 0, hor_stride := 0, ver_stride := 0, format := 0,
    transform := 0, flags := 0, heap := none }

/-- The object the member initialisers of `BufferSource` produce. -/
def BufferSource.init : BufferSource :=
  { mStatus := NO_ERROR, mBufferHeap := BufferHeap.empty, mBufferSize := 0, mBuffer := none }

/-- The constructor `BufferSource::BufferSource(layer, buffers)`. It returns the
new object and the layer as the constructor leaves it. -/
def BufferSource.new (getPixelFormatInfo : FormatLookup) (mLayer : LayerBuffer)
    (buffers : BufferHeap) : BufferSource × LayerBuffer :=
  let init := BufferSource.init
  match buffers.heap with
  | none =>
    ({ init with mBufferHeap := buffers }, mLayer.setNeedsBlending false)
  | some heap =>
    let err : status_t := if heap.heapID ≥ 0 then NO_ERROR else NO_INIT
    if err ≠ NO_ERROR then
      ({ init with mStatus := err }, mLayer)
    else
      let err := (getPixelFormatInfo buffers.format).1
      let info := (getPixelFormatInfo buffers.format).2
      if err ≠ NO_ERROR then
        ({ init with mStatus := err }, mLayer)
      else if buffers.hor_stride < 0 ∨ buffers.ver_stride < 0 then
        ({ init with mStatus := BAD_VALUE }, mLayer)
      else
        ({ init with
            mBufferHeap := buffers
            mBufferSize :=
              ((info.getScanlineSize buffers.hor_stride % SIZE_MOD)
                * to_size_t buffers.ver_stride) % SIZE_MOD },
          (mLayer.setNeedsBlending
            (decide ((info.h_alpha : Int) - (info.l_alpha : Int) > 0))).forceVisibilityTransaction)

/-- The method `BufferSource::getStatus()`. -/
def BufferSource.getStatus (s : BufferSource) : status_t := s.mStatus

/-- The method `BufferSource::getBuffer()`. -/
def BufferSource.getBuffer (s : BufferSource) : Option Buffer := s.mBuffer

/-- The method `BufferSource::setBuffer(buffer)`. -/
def BufferSource.setBuffer (s : BufferSource) (buffer : Option Buffer) : BufferSource :=
  { s with mBuffer := buffer }

/-- The method `BufferSource::postBuffer(offset)`: the source and its layer afterwards. -/
def BufferSource.postBuffer (s : BufferSource) (mLayer : LayerBuffer) (offset : Int) :
    BufferSource × LayerBuffer :=
  let buffers := s.mBufferHeap
  match buffers.heap with
  | some heap =>
    let memorySize := heap.getSize
    if (to_size_t offset + s.mBufferSize) % SIZE_MOD > memorySize then
      (s, mLayer)
    else
      let buffer := Buffer.new buffers offset
      let buffer : Option Buffer := if buffer.getStatus ≠ NO_ERROR then none else some buffer
      (s.setBuffer buffer, mLayer.invalidate)
  | none => (s, mLayer)

/-- The method `BufferSource::unregisterBuffers()`. -/
def BufferSource.unregisterBuffers (s : BufferSource) (mLayer : LayerBuffer) :
    BufferSource × LayerBuffer :=
  ({ s with mBufferHeap := { s.mBufferHeap with heap := none }, mBuffer := none },
    mLayer.invalidate)

/-- The method `BufferSource::transformed()`. -/
def BufferSource.transformed (s : BufferSource) (mLayer : LayerBuffer) : Bool :=
  if s.mBufferHeap.transform ≠ 0 then true else mLayer.mTransformed

/-! ## The overlay control device -/

/-- A plane as the device hands it out: `overlay_t` with the handle that
`getHandleRef` returns for it. -/
structure overlay_t where
  w : Nat
  h : Nat
  format : Int
  w_stride : Nat
  h_stride : Nat
  handleRef : Nat
deriving DecidableEq, Repr

/-- The parameter keys this file passes to `setParameter`. -/
inductive OverlayParam
  | OVERLAY_DITHER
  | OVERLAY_TRANSFORM
deriving DecidableEq, Repr

/-- One call into `overlay_control_device_t`. -/
inductive OverlayCall
  | createOverlay (w h : Nat) (format : Int)
  | setParameter (overlay : overlay_t) (param : OverlayParam) (value : Int)
  | setPosition (overlay : overlay_t) (x y w h : Int)
  | destroyOverlay (overlay : overlay_t)
deriving DecidableEq, Repr

/-- Modelled from the spec: `hardware/overlay.h` is not among the sources. The
value `OVERLAY_ENABLE` passed to switch dithering on. -/
def OVERLAY_ENABLE : Int := 1

/-- What the platform answers while one `OverlaySource` is constructed:
`absent` when `getOverlayEngine()` is null, else the result of the device's
`createOverlay`, `none` being a null plane. -/
inductive OverlayEngine
  | absent
  | present (plane : Option overlay_t)
deriving DecidableEq, Repr

/-- Is the call a `destroyOverlay`? -/
def OverlayCall.isDestroy : OverlayCall → Bool
  | .destroyOverlay _ => true
  | _ => false

/-- Does the call act on an existing plane (position, parameter or destroy)? -/
def OverlayCall.onPlane : OverlayCall → Bool
  | .createOverlay _ _ _ => false
  | _ => true

/-! ## LayerBuffer::OverlaySource -/

/-- The class `OverlayRef` handed to the client: the handle, the channel (which
holds the address of the source it serves) and the negotiated geometry. -/
structure OverlayRef where
  mOverlayHandle : Nat
  mOverlayChannel : Nat
  mWidth : Nat
  mHeight : Nat
  mFormat : Int
  mWidthStride : Nat
  mHeightStride : Nat
deriving DecidableEq, Repr

/-- The data members of `LayerBuffer::OverlaySource`. `mOverlay = none` is the
null `overlay_t*`; `mOverlayDevice` tells whether the device pointer is set.
Members the constructor leaves unassigned read as zero. -/
structure OverlaySource where
  mVisibilityChanged : Bool
  mOverlay : Option overlay_t
  mOverlayHandle : Nat
  mOverlayDevice : Bool
  mWidth : Nat
  mHeight : Nat
  mFormat : Int
  mWidthStride : Nat
  mHeightStride : Nat
deriving DecidableEq, Repr

/-- The constructor `OverlaySource::OverlaySource(layer, overlayRef, w, h, format)`.
The argument `this` is the address of the object under construction. It returns
the new object, what it stored through `overlayRef`, and the device trace. -/
def OverlaySource.new (engine : OverlayEngine) (this : Nat) (calls : List OverlayCall)
    (w h : Nat) (format : Int) : OverlaySource × Option OverlayRef × List OverlayCall :=
  let init : OverlaySource :=
    { mVisibilityChanged := false, mOverlay := none, mOverlayHandle := 0,
      mOverlayDevice := false, mWidth := 0, mHeight := 0, mFormat := 0,
      mWidthStride := 0, mHeightStride := 0 }
  match engine with
  | .absent => (init, none, calls)
  | .present plane =>
    let calls := calls ++ [OverlayCall.createOverlay w h format]
    match plane with
    | none => ({ init with mOverlayDevice := true }, none, calls)
    | some overlay =>
      let calls := calls ++
        [OverlayCall.setParameter overlay OverlayParam.OVERLAY_DITHER OVERLAY_ENABLE]
      let self : OverlaySource :=
        { init with
          mOverlayDevice := true
          mOverlay := some overlay
          mWidth := overlay.w
          mHeight := overlay.h
          mFormat := overlay.format
          mWidthStride := overlay.w_stride
          mHeightStride := overlay.h_stride
          mOverlayHandle := overlay.handleRef }
      (self,
        some { mOverlayHandle := self.mOverlayHandle, mOverlayChannel := this,
               mWidth := self.mWidth, mHeight := self.mHeight, mFormat := self.mFormat,
               mWidthStride := self.mWidthStride, mHeightStride := self.mHeightStride },
        calls)

/-- The destructor `OverlaySource::~OverlaySource()`: the device trace afterwards. -/
def OverlaySource.destructor (s : OverlaySource) (calls : List OverlayCall) :
    List OverlayCall :=
  match s.mOverlay with
  | some overlay =>
    if s.mOverlayDevice then calls ++ [OverlayCall.destroyOverlay overlay] else calls
  | none => calls

/-- The method `OverlaySource::onTransaction(flags)`. -/
def OverlaySource.onTransaction (s : OverlaySource) (mLayer : LayerBuffer) : OverlaySource :=
  if mLayer.currentSequence ≠ mLayer.drawingSequence then
    { s with mVisibilityChanged := true }
  else s

/-- The method `OverlaySource::onVisibilityResolved(planeTransform)`. -/
def OverlaySource.onVisibilityResolved (s : OverlaySource) (mLayer : LayerBuffer)
    (calls : List OverlayCall) : OverlaySource × List OverlayCall :=
  match s.mOverlay with
  | some _ =>
    if s.mVisibilityChanged then
      let s := { s with mVisibilityChanged := false }
      let bounds := mLayer.transformedBounds
      let x := bounds.left
      let y := bounds.top
      let w := bounds.width
      let h := bounds.height
      match s.mOverlay with
      | some overlay =>
        (s, calls ++ [OverlayCall.setPosition overlay x y w h,
                      OverlayCall.setParameter overlay OverlayParam.OVERLAY_TRANSFORM
                        mLayer.orientation])
      | none => (s, calls)
    else (s, calls)
  | none => (s, calls)

/-- The method `OverlaySource::destroyOverlay()`. -/
def OverlaySource.destroyOverlay (s : OverlaySource) (calls : List OverlayCall) :
    OverlaySource × List OverlayCall :=
  match s.mOverlay with
  | some overlay => ({ s with mOverlay := none }, calls ++ [OverlayCall.destroyOverlay overlay])
  | none => (s, calls)

/-- The method `OverlaySource::serverDestroy()`: the source, its layer and the
device trace afterwards. -/
def OverlaySource.serverDestroy (s : OverlaySource) (mLayer : LayerBuffer)
    (calls : List OverlayCall) : OverlaySource × LayerBuffer × List OverlayCall :=
  let mLayer := mLayer.clearSource.2
  let r := s.destroyOverlay calls
  (r.1, mLayer, r.2)

/-! ## The store of sources and the surface-level operations -/

/-- A `Source` object: one of the two concrete subclasses. -/
inductive Source
  | buffer (s : BufferSource)
  | overlay (s : OverlaySource)
deriving DecidableEq, Repr

/-- The layer, the store of the `Source` objects allocated so far (a pointer is
an index into it), the trace of overlay device calls, and the addresses of the
overlay sources that a live `OverlayChannel` holds a strong reference to (the
constructor of `OverlaySource` hands `this` to the channel it creates). -/
structure World where
  layer : LayerBuffer
  sources : List Source
  overlayCalls : List OverlayCall
  channels : List Nat
deriving DecidableEq, Repr

/-- The end of life of an `sp<>` local that referred to the source at `q`. When
neither the layer nor an overlay channel refers to that source any more, the
local was the last reference and the destructor runs: `~OverlaySource` for an
overlay source; `~BufferSource` only deletes a GL texture, which this file
never creates. The destroyed object stays in the store, unreferenced. -/
def World.decStrong (W : World) (q : Nat) : World :=
  if W.layer.mSource = some q ∨ q ∈ W.channels then W
  else
    match W.sources[q]? with
    | some (Source.overlay s) => { W with overlayCalls := s.destructor W.overlayCalls }
    | _ => W

/-- The virtual call `source->postBuffer(offset)`: `BufferSource` overrides it,
`OverlaySource` inherits the empty `Source::postBuffer`. -/
def Source.postBuffer (W : World) (p : Nat) (offset : Int) : World :=
  match W.sources[p]? with
  | some (Source.buffer s) =>
    let r := s.postBuffer W.layer offset
    { W with layer := r.2, sources := W.sources.set p (Source.buffer r.1) }
  | some (Source.overlay _) => W
  | none => W

/-- The virtual call `source->unregisterBuffers()`: `BufferSource` overrides it,
`OverlaySource` inherits the empty `Source::unregisterBuffers`. -/
def Source.unregisterBuffers (W : World) (p : Nat) : World :=
  match W.sources[p]? with
  | some (Source.buffer s) =>
    let r := s.unregisterBuffers W.layer
    { W with layer := r.2, sources := W.sources.set p (Source.buffer r.1) }
  | some (Source.overlay _) => W
  | none => W

/-- The virtual call `source->onTransaction(flags)`: `OverlaySource` overrides it,
`BufferSource` inherits the empty `Source::onTransaction`. -/
def Source.onTransaction (W : World) (p : Nat) : World :=
  match W.sources[p]? with
  | some (Source.overlay s) =>
    { W with sources := W.sources.set p (Source.overlay (s.onTransaction W.layer)) }
  | some (Source.buffer _) => W
  | none => W

/-- The virtual call `source->onVisibilityResolved(planeTransform)`. -/
def Source.onVisibilityResolved (W : World) (p : Nat) : World :=
  match W.sources[p]? with
  | some (Source.overlay s) =>
    let r := s.onVisibilityResolved W.layer W.overlayCalls
    { W with sources := W.sources.set p (Source.overlay r.1), overlayCalls := r.2 }
  | some (Source.buffer _) => W
  | none => W

/-- The method `LayerBuffer::registerBuffers(buffers)`. A source that fails
validation is never stored: its last reference dies at the return. -/
def LayerBuffer.registerBuffers (getPixelFormatInfo : FormatLookup) (W : World)
    (buffers : BufferHeap) : status_t × World :=
  if W.layer.mSource.isSome then
    (INVALID_OPERATION, W)
  else
    let r := BufferSource.new getPixelFormatInfo W.layer buffers
    let source := r.1
    let result := source.getStatus
    if result = NO_ERROR then
      (result,
        { W with
          layer := { r.2 with mSource := some W.sources.length }
          sources := W.sources ++ [Source.buffer source] })
    else
      (result, { W with layer := r.2 })

/-- The method `LayerBuffer::createOverlay(w, h, f)`. When no reference was
produced the new source is dropped at the return and its destructor runs;
when one was produced, its channel holds a reference to the new source. -/
def LayerBuffer.createOverlay (engine : OverlayEngine) (W : World) (w h : Nat) (f : Int) :
    Option OverlayRef × World :=
  if W.layer.mSource.isSome then
    (none, W)
  else
    let r := OverlaySource.new engine W.sources.length W.overlayCalls w h f
    let source := r.1
    let result := r.2.1
    match result with
    | some ref =>
      (some ref,
        { layer := { W.layer with mSource := some W.sources.length }
          sources := W.sources ++ [Source.overlay source]
          overlayCalls := r.2.2
          channels := W.channels ++ [W.sources.length] })
    | none =>
      (none, { W with overlayCalls := source.destructor r.2.2 })

/-- The method `LayerBuffer::postBuffer(offset)`. -/
def LayerBuffer.postBuffer (W : World) (offset : Int) : World :=
  match W.layer.getSource with
  | some source => Source.postBuffer W source offset
  | none => W

/-- The method `LayerBuffer::unregisterBuffers()`. The local `source` takes over
the reference the layer held and dies at the return. -/
def LayerBuffer.unregisterBuffers (W : World) : World :=
  let r := W.layer.clearSource
  let W := { W with layer := r.2 }
  match r.1 with
  | some source => (Source.unregisterBuffers W source).decStrong source
  | none => W

/-- The call `source->destroyOverlay()` on the `OverlaySource` at address `p`. -/
def World.destroyOverlay (W : World) (p : Nat) : World :=
  match W.sources[p]? with
  | some (Source.overlay s) =>
    let r := s.destroyOverlay W.overlayCalls
    { W with sources := W.sources.set p (Source.overlay r.1), overlayCalls := r.2 }
  | _ => W

/-- The call `source->serverDestroy()` on the `OverlaySource` at address `p`. The
temporary `sp<Source>` that `mLayer.clearSource()` returns dies before
`destroyOverlay()` runs. The caller holds a reference to the source at `p`, so
the temporary can be a last reference only when it refers to another source. -/
def World.serverDestroy (W : World) (p : Nat) : World :=
  match W.sources[p]? with
  | some (Source.overlay s) =>
    let W1 : World := { W with layer := W.layer.clearSource.2 }
    let W2 : World :=
      match W.layer.clearSource.1 with
      | some q => if q = p then W1 else W1.decStrong q
      | none => W1
    let r := s.serverDestroy W.layer W2.overlayCalls
    { W2 with
      layer := r.2.1
      sources := W2.sources.set p (Source.overlay r.1)
      overlayCalls := r.2.2 }
  | _ => W

/-- Modelled from the spec: `OverlayChannel` is declared in `LayerBuffer.h`, which
is not among the sources. The client releases the remote reference without
calling `destroy`: the channel dies and drops its reference to the source at
`p`. -/
def World.releaseChannel (W : World) (p : Nat) : World :=
  if p ∈ W.channels then
    World.decStrong { W with channels := W.channels.filter (fun q => q ≠ p) } p
  else W

/-! ## LayerBuffer::SurfaceBuffer -/

/-- The method `SurfaceBuffer::registerBuffers(buffers)`; `owner` is what
`getOwner()` returns, `none` when the layer is gone. -/
def SurfaceBuffer.registerBuffers (getPixelFormatInfo : FormatLookup) (owner : Option World)
    (buffers : BufferHeap) : status_t × Option World :=
  match owner with
  | some W =>
    let r := LayerBuffer.registerBuffers getPixelFormatInfo W buffers
    (r.1, some r.2)
  | none => (NO_INIT, none)

/-- The method `SurfaceBuffer::postBuffer(offset)`. -/
def SurfaceBuffer.postBuffer (owner : Option World) (offset : Int) : Option World :=
  match owner with
  | some W => some (LayerBuffer.postBuffer W offset)
  | none => none

/-- The method `SurfaceBuffer::unregisterBuffers()`. -/
def SurfaceBuffer.unregisterBuffers (owner : Option World) : Option World :=
  match owner with
  | some W => some (LayerBuffer.unregisterBuffers W)
  | none => none

/-- The destructor `SurfaceBuffer::~SurfaceBuffer()`, which calls `unregisterBuffers()`. -/
def SurfaceBuffer.destructor (owner : Option World) : Option World :=
  SurfaceBuffer.unregisterBuffers owner

/-- The method `SurfaceBuffer::createOverlay(w, h, format)`. -/
def SurfaceBuffer.createOverlay (engine : OverlayEngine) (owner : Option World)
    (w h : Nat) (format : Int) : Option OverlayRef × Option World :=
  match owner with
  | some W =>
    let r := LayerBuffer.createOverlay engine W w h format
    (r.1, some r.2)
  | none => (none, none)

/-! ## Sample data -/

/-- A pixel-format table with two entries: format 1 is a 32-bit format with
eight alpha bits, format 4 a 16-bit format without alpha; every other code is
rejected with `BAD_VALUE`. -/
def sampleFormats : FormatLookup := fun format =>
  if format = 1 then
    (NO_ERROR, { h_alpha := 32, l_alpha := 24, getScanlineSize := fun s => 4 * s.toNat })
  else if format = 4 then
    (NO_ERROR, { h_alpha := 0, l_alpha := 0, getScanlineSize := fun s => 2 * s.toNat })
  else
    (BAD_VALUE, { h_alpha := 0, l_alpha := 0, getScanlineSize := fun _ => 0 })

/-- A heap of 4096 bytes with a valid identifier. -/
def sampleHeap : IMemoryHeap := { heapID := 7, base := 4096, getSize := 4096 }

/-- A 16 x 16 descriptor of format 4 over `sampleHeap`: frames of 512 bytes. -/
def sampleBuffers : BufferHeap :=
  { w := 16, h := 16, hor_stride := 16, ver_stride := 16, format := 4,
    transform := 0, flags := 0, heap := some sampleHeap }

/-- A freshly created layer: no source, no blending, nothing recorded. -/
def freshLayer : LayerBuffer :=
  { mSource := none, mNeedsBlending := false, mTransformed := false,
    drawingSequence := 0, currentSequence := 0,
    transformedBounds := { left := 0, top := 0, right := 0, bottom := 0 },
    orientation := 0, visibilityTransactions := 0, invalidations := 0 }

/-- The world of a freshly created layer. -/
def freshWorld : World :=
  { layer := freshLayer, sources := [], overlayCalls := [], channels := [] }

/-- A plane of 16 x 16 pixels. -/
def samplePlane : overlay_t :=
  { w := 16, h := 16, format := 4, w_stride := 16, h_stride := 16, handleRef := 9 }

/-! ## Sequences of attach calls -/

/-- One of the two calls that can attach a source. -/
inductive AttachCall
  | registerBuffers (buffers : BufferHeap)
  | createOverlay (engine : OverlayEngine) (w h : Nat) (f : Int)
deriving DecidableEq, Repr

/-- The world after one attach call. -/
def AttachCall.run (getPixelFormatInfo : FormatLookup) (W : World) : AttachCall → World
  | .registerBuffers buffers => (LayerBuffer.registerBuffers getPixelFormatInfo W buffers).2
  | .createOverlay engine w h f => (LayerBuffer.createOverlay engine W w h f).2

/-- The number of calls of the sequence, run from `W`, that change which source
is attached to the layer. -/
def attachments (getPixelFormatInfo : FormatLookup) : List AttachCall → World → Nat
  | [], _ => 0
  | c :: cs, W =>
    (if (c.run getPixelFormatInfo W).layer.mSource ≠ W.layer.mSource then 1 else 0)
      + attachments getPixelFormatInfo cs (c.run getPixelFormatInfo W)

/-- A world whose layer has the buffer source of `sampleBuffers` attached. -/
def attachedWorld : World := (LayerBuffer.registerBuffers sampleFormats freshWorld sampleBuffers).2

/-- The buffer source that registering `sampleBuffers` constructs. -/
def sampleSource : BufferSource := (BufferSource.new sampleFormats freshLayer sampleBuffers).1

/-- A descriptor that passes the checks of the `BufferSource` constructor: no
heap at all, or a heap with a valid identifier, a known format and
non-negative strides. -/
def BufferHeap.valid (getPixelFormatInfo : FormatLookup) (buffers : BufferHeap) : Prop :=
  match buffers.heap with
  | none => True
  | some heap =>
    0 ≤ heap.heapID ∧ (getPixelFormatInfo buffers.format).1 = NO_ERROR ∧
      0 ≤ buffers.hor_stride ∧ 0 ≤ buffers.ver_stride

instance BufferHeap.decidableValid (getPixelFormatInfo : FormatLookup) (buffers : BufferHeap) :
    Decidable (buffers.valid getPixelFormatInfo) :=
  match h : buffers.heap with
  | none => isTrue (by simp [BufferHeap.valid, h])
  | some heap =>
    if hc : 0 ≤ heap.heapID ∧ (getPixelFormatInfo buffers.format).1 = NO_ERROR ∧
        0 ≤ buffers.hor_stride ∧ 0 ≤ buffers.ver_stride then
      isTrue (by simp only [BufferHeap.valid, h]; exact hc)
    else
      isFalse (by simp only [BufferHeap.valid, h]; exact hc)

/-! ## Sequences of calls on one overlay source -/

/-- What a method of an `OverlaySource` can touch: the object, its layer and the
device trace. -/
abbrev OverlayState := OverlaySource × LayerBuffer × List OverlayCall

/-- One of the two teardown entry points of an `OverlaySource`. -/
inductive TeardownCall
  | destroyOverlay
  | serverDestroy
deriving DecidableEq, Repr

/-- The state after one teardown call. -/
def TeardownCall.run : TeardownCall → OverlayState → OverlayState
  | .destroyOverlay, st => ((st.1.destroyOverlay st.2.2).1, st.2.1, (st.1.destroyOverlay st.2.2).2)
  | .serverDestroy, st => st.1.serverDestroy st.2.1 st.2.2

/-- The state after a sequence of teardown calls. -/
def teardown : List TeardownCall → OverlayState → OverlayState
  | [], st => st
  | t :: ts, st => teardown ts (t.run st)

/-- The device trace after a sequence of teardown calls followed by the destructor. -/
def teardownThenDestruct (ts : List TeardownCall) (st : OverlayState) : List OverlayCall :=
  (teardown ts st).1.destructor (teardown ts st).2.2

/-- The `destroyOverlay` calls of a device trace, in order. -/
def destroyCalls (calls : List OverlayCall) : List OverlayCall :=
  calls.filter OverlayCall.isDestroy

/-- The destroy call still owed for the plane a source holds. -/
def OverlaySource.owed (s : OverlaySource) : List OverlayCall :=
  match s.mOverlay with
  | some overlay => [OverlayCall.destroyOverlay overlay]
  | none => []

/-- A call on an `OverlaySource`, or a change of its layer made by the rest of
the compositor between two calls. -/
inductive OverlayOp
  | onTransaction
  | onVisibilityResolved
  | destroyOverlay
  | serverDestroy
  | setLayer (L : LayerBuffer)
deriving DecidableEq, Repr

/-- The state after one operation. -/
def OverlayOp.run : OverlayOp → OverlayState → OverlayState
  | .onTransaction, st => (st.1.onTransaction st.2.1, st.2.1, st.2.2)
  | .onVisibilityResolved, st =>
    ((st.1.onVisibilityResolved st.2.1 st.2.2).1, st.2.1,
      (st.1.onVisibilityResolved st.2.1 st.2.2).2)
  | .destroyOverlay, st => ((st.1.destroyOverlay st.2.2).1, st.2.1, (st.1.destroyOverlay st.2.2).2)
  | .serverDestroy, st => st.1.serverDestroy st.2.1 st.2.2
  | .setLayer L, st => (st.1, L, st.2.2)

/-- The state after a sequence of operations. -/
def runOps : List OverlayOp → OverlayState → OverlayState
  | [], st => st
  | op :: ops, st => runOps ops (op.run st)

/-- No `onTransaction` of the sequence, run from `st`, finds the pending and the
drawing sequence number different. -/
def quiet : List OverlayOp → OverlayState → Prop
  | [], _ => True
  | op :: ops, st =>
    (op = OverlayOp.onTransaction → st.2.1.currentSequence = st.2.1.drawingSequence) ∧
      quiet ops (op.run st)

instance quiet.decidable : (ops : List OverlayOp) → (st : OverlayState) → Decidable (quiet ops st)
  | [], _ => isTrue trivial
  | op :: ops, st =>
    have : Decidable (quiet ops (op.run st)) := quiet.decidable ops (op.run st)
    inferInstanceAs (Decidable
      ((op = OverlayOp.onTransaction → st.2.1.currentSequence = st.2.1.drawingSequence) ∧
        quiet ops (op.run st)))

/-- The fresh layer with a pending transaction: the two sequence numbers differ. -/
def movedLayer : LayerBuffer := { freshLayer with currentSequence := 1 }

/-- An overlay source that owns `samplePlane` and has seen the pending
transaction of `movedLayer`. -/
def flaggedSource : OverlaySource :=
  (OverlaySource.new (OverlayEngine.present (some samplePlane)) 0 [] 16 16 4).1.onTransaction
    movedLayer

/-- A descriptor of format 4 over `sampleHeap` whose horizontal stride is
`2^31 - 8`: one scanline takes `2^32 - 16` bytes. -/
def wideBuffers : BufferHeap :=
  { w := 16, h := 1, hor_stride := 2147483640, ver_stride := 1, format := 4,
    transform := 0, flags := 0, heap := some sampleHeap }

/-- The buffer source that registering `wideBuffers` constructs. -/
def wideSource : BufferSource := (BufferSource.new sampleFormats freshLayer wideBuffers).1

/-! ## Frames and the heap -/

/-- The end of the frame a posted buffer describes: its byte offset plus the
scanline size of its image width times its image height. -/
def Buffer.frameEnd (getPixelFormatInfo : FormatLookup) (b : Buffer) : Int :=
  (b.mNativeBuffer.img.offset : Int) +
    ((getPixelFormatInfo b.mNativeBuffer.img.format).2.getScanlineSize
        (b.mNativeBuffer.img.w : Int) : Int) * (b.mNativeBuffer.img.h : Int)

/-- The descriptor `sampleBuffers` with both strides left zero: the image
extents default to the width and height, 16 x 16. -/
def zeroStrideBuffers : BufferHeap := { sampleBuffers with hor_stride := 0, ver_stride := 0 }

/-- The buffer source that registering `zeroStrideBuffers` constructs. -/
def zeroStrideSource : BufferSource :=
  (BufferSource.new sampleFormats freshLayer zeroStrideBuffers).1

/-- A descriptor of format 4 over `sampleHeap` with strides `2^16` and `2^15`:
one scanline takes `2^17` bytes and a frame `2^32` bytes. -/
def hugeBuffers : BufferHeap :=
  { w := 16, h := 16, hor_stride := 65536, ver_stride := 32768, format := 4,
    transform := 0, flags := 0, heap := some sampleHeap }

/-- The buffer source that registering `hugeBuffers` constructs. -/
def hugeSource : BufferSource := (BufferSource.new sampleFormats freshLayer hugeBuffers).1

/-! ## Sample worlds with an overlay -/

/-- The overlay source that `createOverlay` constructs at address 0 when the
device hands out `samplePlane`. -/
def sampleOverlaySource : OverlaySource :=
  (OverlaySource.new (OverlayEngine.present (some samplePlane)) 0 [] 16 16 4).1

/-- The fresh world after a successful `createOverlay`: the overlay source at
address 0 is attached and owns `samplePlane`. -/
def overlayWorld : World :=
  (LayerBuffer.createOverlay (OverlayEngine.present (some samplePlane)) freshWorld 16 16 4).2

/-- The world reached from `overlayWorld` by `unregisterBuffers` followed by
registering `sampleBuffers`: the overlay source at address 0 is detached and
still held by its channel, the buffer source at address 1 is attached. -/
def replacedWorld : World :=
  (LayerBuffer.registerBuffers sampleFormats (LayerBuffer.unregisterBuffers overlayWorld)
    sampleBuffers).2

/-- The source `sampleSource` after an accepted post at offset 0: it holds
`sampleBuffers` and shows the frame at offset 0. -/
def postedSource : BufferSource := (sampleSource.postBuffer freshLayer 0).1

/-- The world reached from `overlayWorld` when the client releases its remote
reference without calling `destroy`: the overlay source at address 0 is still
attached and owns `samplePlane`, and only the layer refers to it. -/
def orphanWorld : World := World.releaseChannel overlayWorld 0

/-! ## The race between teardown and the visibility pass

Two threads act on one `OverlaySource`: the compositor, inside
`onVisibilityResolved`, and a teardown thread. The compositor's statements
outside the lock are single steps, in program order; the block it runs under
`mLock` is one step, and so is the body of `destroyOverlay()`, which runs under
the same lock, and `clearSource()`, which runs under the layer's lock. Both
threads hold a strong reference to the source while they run (the compositor
the local `sp<Source>` of `unlockPageFlip`), so the destructor cannot run
before both have finished. -/

/-- Where the compositor thread stands inside `onVisibilityResolved`: before the
test of `mOverlay`, before the test of `mVisibilityChanged`, before the
assignment to it, before the read of the bounds, before the block under the
lock (with the bounds it read), or returned. -/
inductive VisibilityPc
  | testOverlay
  | testChanged
  | clearChanged
  | readBounds
  | lockedBlock (x y w h : Int)
  | returned
deriving DecidableEq, Repr

/-- An atomic step of a teardown thread: `mLayer.clearSource()`, or the body of
`destroyOverlay()` under the lock. -/
inductive TeardownStep
  | clearSource
  | destroyLocked
deriving DecidableEq, Repr

/-- What tears the source down while the compositor runs: a call of
`destroyOverlay`, a call of `serverDestroy`, or the destruction of the surface,
which reaches the source through `~SurfaceBuffer` and
`LayerBuffer::unregisterBuffers` (`~LayerBuffer` itself has an empty body and
only releases `mSource`). -/
inductive TeardownTrigger
  | destroyOverlay
  | serverDestroy
  | surfaceDestruction
deriving DecidableEq, Repr

/-- The atomic steps of one trigger. `serverDestroy` is `clearSource()` followed
by `destroyOverlay()`. For an overlay source `LayerBuffer::unregisterBuffers`
is `clearSource()` followed by the empty `Source::unregisterBuffers`; the
reference it drops is not the last one while the compositor is in the call. -/
def TeardownTrigger.steps : TeardownTrigger → List TeardownStep
  | .destroyOverlay => [TeardownStep.destroyLocked]
  | .serverDestroy => [TeardownStep.clearSource, TeardownStep.destroyLocked]
  | .surfaceDestruction => [TeardownStep.clearSource]

/-- The atomic steps of a sequence of triggers, in order. -/
def TeardownTrigger.program : List TeardownTrigger → List TeardownStep
  | [] => []
  | t :: ts => t.steps ++ TeardownTrigger.program ts

/-- The state of the race: the source, its layer, the device trace, the
compositor's position and the steps the teardown thread still has to take. -/
structure Race where
  source : OverlaySource
  layer : LayerBuffer
  calls : List OverlayCall
  pc : VisibilityPc
  todo : List TeardownStep
deriving DecidableEq, Repr

/-- The race at its start: the compositor enters `onVisibilityResolved`, the
teardown thread has its whole program ahead. -/
def Race.start (s : OverlaySource) (L : LayerBuffer) (calls : List OverlayCall)
    (triggers : List TeardownTrigger) : Race :=
  { source := s, layer := L, calls := calls, pc := VisibilityPc.testOverlay,
    todo := TeardownTrigger.program triggers }

/-- One step of the compositor thread through `onVisibilityResolved`. -/
def Race.compositorStep (r : Race) : Race :=
  match r.pc with
  | .testOverlay =>
    match r.source.mOverlay with
    | some _ => { r with pc := VisibilityPc.testChanged }
    | none => { r with pc := VisibilityPc.returned }
  | .testChanged =>
    if r.source.mVisibilityChanged then { r with pc := VisibilityPc.clearChanged }
    else { r with pc := VisibilityPc.returned }
  | .clearChanged =>
    { r with source := { r.source with mVisibilityChanged := false },
             pc := VisibilityPc.readBounds }
  | .readBounds =>
    let bounds := r.layer.transformedBounds
    { r with pc := VisibilityPc.lockedBlock bounds.left bounds.top bounds.width bounds.height }
  | .lockedBlock x y w h =>
    match r.source.mOverlay with
    | some overlay =>
      { r with
        calls := r.calls ++ [OverlayCall.setPosition overlay x y w h,
                             OverlayCall.setParameter overlay OverlayParam.OVERLAY_TRANSFORM
                               r.layer.orientation]
        pc := VisibilityPc.returned }
    | none => { r with pc := VisibilityPc.returned }
  | .returned => r

/-- One step of the teardown thread. -/
def Race.teardownStep (r : Race) : Race :=
  match r.todo with
  | [] => r
  | TeardownStep.clearSource :: rest =>
    { r with layer := r.layer.clearSource.2, todo := rest }
  | TeardownStep.destroyLocked :: rest =>
    { r with
      source := (r.source.destroyOverlay r.calls).1
      calls := (r.source.destroyOverlay r.calls).2
      todo := rest }

/-- The race under a schedule: `true` lets the compositor take its next step,
`false` the teardown thread; a thread that has finished stays where it is. -/
def Race.run : List Bool → Race → Race
  | [], r => r
  | true :: schedule, r => Race.run schedule r.compositorStep
  | false :: schedule, r => Race.run schedule r.teardownStep

/-- Both threads have finished. -/
def Race.finished (r : Race) : Bool :=
  decide (r.pc = VisibilityPc.returned) && decide (r.todo = [])

/-- The plane a device call acts on. -/
def OverlayCall.plane : OverlayCall → Option overlay_t
  | .createOverlay _ _ _ => none
  | .setParameter overlay _ _ => some overlay
  | .setPosition overlay _ _ _ _ => some overlay
  | .destroyOverlay overlay => some overlay

/-- On a trace given newest call first: no call acts on a plane that an older
call destroyed. -/
def liveNewestFirst : List OverlayCall → Prop
  | [] => True
  | c :: older =>
    (match c.plane with
     | some overlay => OverlayCall.destroyOverlay overlay ∉ older
     | none => True) ∧ liveNewestFirst older

instance liveNewestFirst.decidable : (calls : List OverlayCall) → Decidable (liveNewestFirst calls)
  | [] => isTrue trivial
  | c :: older =>
    have : Decidable (liveNewestFirst older) := liveNewestFirst.decidable older
    have : Decidable (match c.plane with
        | some overlay => OverlayCall.destroyOverlay overlay ∉ older
        | none => True) := by
      cases c.plane with
      | none => exact isTrue trivial
      | some overlay => exact inferInstanceAs (Decidable (OverlayCall.destroyOverlay overlay ∉ older))
    inferInstanceAs (Decidable
      ((match c.plane with
        | some overlay => OverlayCall.destroyOverlay overlay ∉ older
        | none => True) ∧ liveNewestFirst older))

/-- No call of the trace acts on a plane that an earlier call of the trace
destroyed: no `setPosition` or `setParameter` after the `destroyOverlay`, and
no second `destroyOverlay`. -/
def liveTrace (calls : List OverlayCall) : Prop := liveNewestFirst calls.reverse

instance liveTrace.decidable (calls : List OverlayCall) : Decidable (liveTrace calls) :=
  liveNewestFirst.decidable calls.reverse

/-- The layer of `movedLayer` with the source at address 0 attached. -/
def movedAttachedLayer : LayerBuffer := { movedLayer with mSource := some 0 }

/-- What every schedule preserves, relative to the source `s0` and the trace
`calls0` the race started from: the destroy calls made plus the one still owed,
the device pointer, the handle (unchanged or nulled), and a trace in which no
call acts on a destroyed plane and the plane still held is not destroyed. -/
def Race.inv (s0 : OverlaySource) (calls0 : List OverlayCall) (r : Race) : Prop :=
  destroyCalls r.calls ++ r.source.owed = destroyCalls calls0 ++ s0.owed ∧
  r.source.mOverlayDevice = s0.mOverlayDevice ∧
  (r.source.mOverlay = none ∨ r.source.mOverlay = s0.mOverlay) ∧
  liveTrace r.calls ∧
  ∀ overlay, r.source.mOverlay = some overlay →
    OverlayCall.destroyOverlay overlay ∉ r.calls

/-- The descriptor `sampleBuffers` with a width of `2^31`, above `INT_MAX`. -/
def broadBuffers : BufferHeap := { sampleBuffers with w := 2147483648 }

/-! # Theorems -/

/-! ## Lemmas on attaching -/

theorem registerBuffers_attached (g : FormatLookup) (W : World) (buffers : BufferHeap)
    (h : W.layer.mSource.isSome = true) :
    LayerBuffer.registerBuffers g W buffers = (INVALID_OPERATION, W) := by
  simp [LayerBuffer.registerBuffers, h]

theorem createOverlay_attached (engine : OverlayEngine) (W : World) (w h : Nat) (f : Int)
    (hs : W.layer.mSource.isSome = true) :
    LayerBuffer.createOverlay engine W w h f = (none, W) := by
  simp [LayerBuffer.createOverlay, hs]

theorem AttachCall.run_attached (g : FormatLookup) (W : World) (c : AttachCall)
    (h : W.layer.mSource.isSome = true) : c.run g W = W := by
  cases c with
  | registerBuffers buffers => simp [AttachCall.run, registerBuffers_attached g W buffers h]
  | createOverlay engine w h' f => simp [AttachCall.run, createOverlay_attached engine W w h' f h]

theorem attachments_attached (g : FormatLookup) (cs : List AttachCall) (W : World)
    (h : W.layer.mSource.isSome = true) : attachments g cs W = 0 := by
  induction cs with
  | nil => rfl
  | cons c cs ih => simp [attachments, AttachCall.run_attached g W c h, ih]

theorem attachments_le_one (g : FormatLookup) (cs : List AttachCall) (W : World) :
    attachments g cs W ≤ 1 := by
  induction cs generalizing W with
  | nil => simp [attachments]
  | cons c cs ih =>
    by_cases hW : W.layer.mSource.isSome = true
    · rw [attachments_attached g (c :: cs) W hW]; exact Nat.zero_le 1
    · by_cases hc : (c.run g W).layer.mSource = W.layer.mSource
      · simp only [attachments, hc, ne_eq, not_true_eq_false, if_false, Nat.zero_add]
        exact ih _
      · have hsome : (c.run g W).layer.mSource.isSome = true := by
          cases hm : (c.run g W).layer.mSource with
          | some p => rfl
          | none =>
            exfalso
            apply hc
            rw [hm]
            cases hw : W.layer.mSource with
            | none => rfl
            | some q => simp [hw] at hW
        simp [attachments, hc, attachments_attached g cs _ hsome]

theorem BufferSource.new_null_heap (g : FormatLookup) (L : LayerBuffer) (buffers : BufferHeap)
    (hh : buffers.heap = none) :
    BufferSource.new g L buffers =
      ({ BufferSource.init with mBufferHeap := buffers }, L.setNeedsBlending false) := by
  simp [BufferSource.new, hh, BufferSource.init]

theorem BufferSource.new_bad_heap (g : FormatLookup) (L : LayerBuffer) (buffers : BufferHeap)
    (heap : IMemoryHeap) (hh : buffers.heap = some heap) (hid : heap.heapID < 0) :
    BufferSource.new g L buffers = ({ BufferSource.init with mStatus := NO_INIT }, L) := by
  have h1 : ¬ heap.heapID ≥ 0 := by omega
  simp [BufferSource.new, hh, h1, BufferSource.init, NO_INIT, NO_ERROR]

theorem BufferSource.new_bad_format (g : FormatLookup) (L : LayerBuffer) (buffers : BufferHeap)
    (heap : IMemoryHeap) (hh : buffers.heap = some heap) (hid : 0 ≤ heap.heapID)
    (hf : (g buffers.format).1 ≠ NO_ERROR) :
    BufferSource.new g L buffers =
      ({ BufferSource.init with mStatus := (g buffers.format).1 }, L) := by
  have h1 : heap.heapID ≥ 0 := hid
  simp [BufferSource.new, hh, h1, BufferSource.init, hf]

theorem BufferSource.new_bad_stride (g : FormatLookup) (L : LayerBuffer) (buffers : BufferHeap)
    (heap : IMemoryHeap) (hh : buffers.heap = some heap) (hid : 0 ≤ heap.heapID)
    (hf : (g buffers.format).1 = NO_ERROR)
    (hs : buffers.hor_stride < 0 ∨ buffers.ver_stride < 0) :
    BufferSource.new g L buffers = ({ BufferSource.init with mStatus := BAD_VALUE }, L) := by
  have h1 : heap.heapID ≥ 0 := hid
  simp [BufferSource.new, hh, h1, BufferSource.init, hf, hs]

theorem BufferSource.new_valid (g : FormatLookup) (L : LayerBuffer) (buffers : BufferHeap)
    (heap : IMemoryHeap) (hh : buffers.heap = some heap) (hid : 0 ≤ heap.heapID)
    (hf : (g buffers.format).1 = NO_ERROR)
    (hs : ¬ (buffers.hor_stride < 0 ∨ buffers.ver_stride < 0)) :
    BufferSource.new g L buffers =
      ({ BufferSource.init with
          mBufferHeap := buffers
          mBufferSize :=
            (((g buffers.format).2.getScanlineSize buffers.hor_stride % SIZE_MOD)
              * to_size_t buffers.ver_stride) % SIZE_MOD },
        (L.setNeedsBlending
          (decide (((g buffers.format).2.h_alpha : Int) - ((g buffers.format).2.l_alpha : Int) > 0))
          ).forceVisibilityTransaction) := by
  have h1 : heap.heapID ≥ 0 := hid
  simp only [BufferSource.new, hh, h1, BufferSource.init, hf, hs]
  simp

/-- A failed construction leaves the layer as it was. -/
theorem BufferSource.new_layer_of_error (g : FormatLookup) (L : LayerBuffer)
    (buffers : BufferHeap) (h : (BufferSource.new g L buffers).1.getStatus ≠ NO_ERROR) :
    (BufferSource.new g L buffers).2 = L := by
  cases hh : buffers.heap with
  | none =>
    rw [BufferSource.new_null_heap g L buffers hh] at h
    exact absurd rfl h
  | some heap =>
    by_cases hid : 0 ≤ heap.heapID
    · by_cases hf : (g buffers.format).1 = NO_ERROR
      · by_cases hs : buffers.hor_stride < 0 ∨ buffers.ver_stride < 0
        · rw [BufferSource.new_bad_stride g L buffers heap hh hid hf hs]
        · rw [BufferSource.new_valid g L buffers heap hh hid hf hs] at h
          exact absurd rfl h
      · rw [BufferSource.new_bad_format g L buffers heap hh hid hf]
    · rw [BufferSource.new_bad_heap g L buffers heap hh (by omega)]

/-- C1: while a source is attached, `registerBuffers` returns `INVALID_OPERATION`
and `createOverlay` returns no reference, and neither changes the world (so the
attached source and the blending flag stay); hence in any sequence of these
two calls, from any state, at most one call changes the attached source. -/
theorem attach_at_most_once (g : FormatLookup) (W : World) (cs : List AttachCall) :
    (W.layer.mSource.isSome = true →
      (∀ buffers, LayerBuffer.registerBuffers g W buffers = (INVALID_OPERATION, W)) ∧
      (∀ engine w h f, LayerBuffer.createOverlay engine W w h f = (none, W))) ∧
    attachments g cs W ≤ 1 :=
  ⟨fun h => ⟨fun buffers => registerBuffers_attached g W buffers h,
             fun engine w h' f => createOverlay_attached engine W w h' f h⟩,
   attachments_le_one g cs W⟩

/-- Witness of C1 at `attachedWorld`: a second registration is refused there. -/
theorem attach_at_most_once_witness :
    attachedWorld.layer.mSource.isSome = true ∧
    LayerBuffer.registerBuffers sampleFormats attachedWorld sampleBuffers
      = (INVALID_OPERATION, attachedWorld) :=
  ⟨by decide,
   ((attach_at_most_once sampleFormats attachedWorld []).1 (by decide)).1 sampleBuffers⟩

/-- C2: on a layer without source, `registerBuffers` returns the status the
`BufferSource` constructor computed; a source is attached afterwards exactly
when that status is `NO_ERROR`; and on an error the whole world, hence the
layer (no source, same blending flag, no forced visibility transaction), is
as before. -/
theorem registerBuffers_unattached (g : FormatLookup) (W : World) (buffers : BufferHeap)
    (h : W.layer.mSource = none) :
    (LayerBuffer.registerBuffers g W buffers).1
        = (BufferSource.new g W.layer buffers).1.getStatus ∧
    ((LayerBuffer.registerBuffers g W buffers).2.layer.mSource.isSome = true ↔
        (BufferSource.new g W.layer buffers).1.getStatus = NO_ERROR) ∧
    ((BufferSource.new g W.layer buffers).1.getStatus ≠ NO_ERROR →
        (LayerBuffer.registerBuffers g W buffers).2 = W) := by
  by_cases hst : (BufferSource.new g W.layer buffers).1.getStatus = NO_ERROR
  · simp [LayerBuffer.registerBuffers, h, hst]
  · have hl := BufferSource.new_layer_of_error g W.layer buffers hst
    simp [LayerBuffer.registerBuffers, h, hst, hl]

/-- Witness of C2 at the fresh world with an unknown pixel format: the call
returns `BAD_VALUE` and changes nothing. -/
theorem registerBuffers_unattached_witness :
    freshWorld.layer.mSource = none ∧
    (LayerBuffer.registerBuffers sampleFormats freshWorld { sampleBuffers with format := 99 }).1
      = BAD_VALUE ∧
    (LayerBuffer.registerBuffers sampleFormats freshWorld { sampleBuffers with format := 99 }).2
      = freshWorld :=
  ⟨rfl,
   (registerBuffers_unattached sampleFormats freshWorld { sampleBuffers with format := 99 }
      rfl).1.trans (by decide),
   (registerBuffers_unattached sampleFormats freshWorld { sampleBuffers with format := 99 }
      rfl).2.2 (by decide)⟩

/-! ## Posting to a buffer source -/

theorem list_set_self {α : Type} (l : List α) (i : Nat) (a : α) (h : l[i]? = some a) :
    l.set i a = l := by
  induction l generalizing i with
  | nil => rfl
  | cons x xs ih =>
    cases i with
    | zero => simp at h; simp [h]
    | succ n => simp at h; simp [ih n h]

theorem BufferSource.postBuffer_reject (s : BufferSource) (L : LayerBuffer) (heap : IMemoryHeap)
    (o : Int) (hh : s.mBufferHeap.heap = some heap)
    (hc : (to_size_t o + s.mBufferSize) % SIZE_MOD > heap.getSize) :
    s.postBuffer L o = (s, L) := by
  simp [BufferSource.postBuffer, hh, hc]

theorem BufferSource.postBuffer_accept (s : BufferSource) (L : LayerBuffer) (heap : IMemoryHeap)
    (o : Int) (hh : s.mBufferHeap.heap = some heap)
    (hc : (to_size_t o + s.mBufferSize) % SIZE_MOD ≤ heap.getSize) :
    s.postBuffer L o =
      ({ s with mBuffer := some (Buffer.new s.mBufferHeap o) }, L.invalidate) := by
  have hc2 : ¬ (heap.getSize < (to_size_t o + s.mBufferSize) % SIZE_MOD) := by omega
  simp [BufferSource.postBuffer, hh, hc2, Buffer.getStatus, Buffer.new, BufferSource.setBuffer]

theorem BufferSource.postBuffer_null_heap (s : BufferSource) (L : LayerBuffer) (o : Int)
    (hh : s.mBufferHeap.heap = none) : s.postBuffer L o = (s, L) := by
  simp [BufferSource.postBuffer, hh]

theorem LayerBuffer.invalidate_ne (L : LayerBuffer) : L.invalidate ≠ L := by
  intro h
  have h2 := congrArg LayerBuffer.invalidations h
  simp [LayerBuffer.invalidate] at h2

theorem to_size_t_of_nonneg (o : Int) (h0 : 0 ≤ o) (h1 : o < (SIZE_MOD : Int)) :
    (to_size_t o : Int) = o := by
  unfold to_size_t
  rw [Int.emod_eq_of_lt h0 h1]
  exact Int.toNat_of_nonneg h0

/-- C3, as amended: for a buffer source with a present heap, when the unsigned sum
`size_t(o) + F` does not wrap, the post is accepted (a new frame is installed
and the layer invalidated) exactly when `size_t(o) + F ≤ S`; in particular for
`0 ≤ o` with `o + F < 2^32`, exactly when `o + F ≤ S`; and a post that is not
accepted leaves the source and the layer as they were. -/
theorem postBuffer_accepted_iff (s : BufferSource) (L : LayerBuffer) (heap : IMemoryHeap)
    (o : Int) (hh : s.mBufferHeap.heap = some heap) :
    (to_size_t o + s.mBufferSize < SIZE_MOD →
      (s.postBuffer L o = ({ s with mBuffer := some (Buffer.new s.mBufferHeap o) }, L.invalidate)
        ↔ to_size_t o + s.mBufferSize ≤ heap.getSize)) ∧
    (0 ≤ o → o + (s.mBufferSize : Int) < (SIZE_MOD : Int) →
      (s.postBuffer L o = ({ s with mBuffer := some (Buffer.new s.mBufferHeap o) }, L.invalidate)
        ↔ o + (s.mBufferSize : Int) ≤ (heap.getSize : Int))) ∧
    (s.postBuffer L o ≠ ({ s with mBuffer := some (Buffer.new s.mBufferHeap o) }, L.invalidate) →
      s.postBuffer L o = (s, L)) := by
  have key : ∀ (_ : to_size_t o + s.mBufferSize < SIZE_MOD),
      (s.postBuffer L o = ({ s with mBuffer := some (Buffer.new s.mBufferHeap o) }, L.invalidate)
        ↔ to_size_t o + s.mBufferSize ≤ heap.getSize) := by
    intro hno
    have hmod : (to_size_t o + s.mBufferSize) % SIZE_MOD = to_size_t o + s.mBufferSize :=
      Nat.mod_eq_of_lt hno
    constructor
    · intro hacc
      by_contra hgt
      have hrej := BufferSource.postBuffer_reject s L heap o hh (by omega)
      rw [hrej] at hacc
      have h2 := congrArg Prod.snd hacc
      exact LayerBuffer.invalidate_ne L h2.symm
    · intro hle
      exact BufferSource.postBuffer_accept s L heap o hh (by omega)
  refine ⟨key, ?_, ?_⟩
  · intro h0 hlt
    have ho : o < (SIZE_MOD : Int) := by
      have : (0 : Int) ≤ (s.mBufferSize : Int) := Int.ofNat_nonneg _
      omega
    have hconv := to_size_t_of_nonneg o h0 ho
    have hno : to_size_t o + s.mBufferSize < SIZE_MOD := by
      have : ((to_size_t o + s.mBufferSize : Nat) : Int) < (SIZE_MOD : Int) := by
        push_cast; rw [hconv]; exact hlt
      exact_mod_cast this
    rw [key hno]
    constructor
    · intro hle
      have : ((to_size_t o + s.mBufferSize : Nat) : Int) ≤ (heap.getSize : Int) := by
        exact_mod_cast hle
      push_cast at this; rw [hconv] at this; exact this
    · intro hle
      have : ((to_size_t o + s.mBufferSize : Nat) : Int) ≤ (heap.getSize : Int) := by
        push_cast; rw [hconv]; exact hle
      exact_mod_cast this
  · intro hne
    by_cases hc : (to_size_t o + s.mBufferSize) % SIZE_MOD ≤ heap.getSize
    · exact absurd (BufferSource.postBuffer_accept s L heap o hh hc) hne
    · exact BufferSource.postBuffer_reject s L heap o hh (by omega)

/-- Witness of C3 as amended: on `sampleSource` (frames of 512 bytes in a heap of
4096) a post at offset 1024 is accepted. -/
theorem postBuffer_accepted_iff_witness :
    sampleSource.mBufferHeap.heap = some sampleHeap ∧
    sampleSource.postBuffer freshLayer 1024 =
      ({ sampleSource with mBuffer := some (Buffer.new sampleSource.mBufferHeap 1024) },
        freshLayer.invalidate) :=
  ⟨by decide,
   ((postBuffer_accepted_iff sampleSource freshLayer sampleHeap 1024 (by decide)).1
      (by decide)).2 (by decide)⟩

/-- Counterexample to C3 as stated: on `sampleSource` (`F = 512`, `S = 4096`) the
offset `-1024` satisfies `o + F ≤ S` as integers, yet the post is rejected:
no frame is installed and nothing changes. -/
theorem postBuffer_negative_offset_rejected :
    sampleSource.mBufferHeap.heap = some sampleHeap ∧
    (-1024 : Int) + (sampleSource.mBufferSize : Int) ≤ (sampleHeap.getSize : Int) ∧
    sampleSource.postBuffer freshLayer (-1024) = (sampleSource, freshLayer) ∧
    ¬ ((sampleSource.postBuffer freshLayer (-1024)).1.mBuffer.isSome = true ↔
        (-1024 : Int) + (sampleSource.mBufferSize : Int) ≤ (sampleHeap.getSize : Int)) := by
  decide

/-- Where the unsigned sum wraps, the comparison sees the wrapped value: frames of
`wideSource` take `2^32 - 16` bytes, and a post at offset 16 into the heap of
4096 bytes is accepted. -/
theorem postBuffer_wrapped_sum_accepted :
    wideSource.getStatus = NO_ERROR ∧
    wideSource.mBufferSize = 4294967280 ∧
    ¬ ((16 : Int) + (wideSource.mBufferSize : Int) ≤ (sampleHeap.getSize : Int)) ∧
    (wideSource.postBuffer freshLayer 16).1.mBuffer = some (Buffer.new wideBuffers 16) := by
  decide

/-! ## Validation order of the buffer source constructor -/

/-- C4: with a present heap the constructor validates in a fixed order: a
negative heap identifier gives `NO_INIT` whatever the format and strides;
otherwise a failed format lookup gives that lookup's error whatever the
strides; otherwise a negative stride gives `BAD_VALUE`; otherwise the status is
`NO_ERROR`. -/
theorem BufferSource_validation_order (g : FormatLookup) (L : LayerBuffer)
    (buffers : BufferHeap) (heap : IMemoryHeap) (hh : buffers.heap = some heap) :
    (heap.heapID < 0 → (BufferSource.new g L buffers).1.getStatus = NO_INIT) ∧
    (0 ≤ heap.heapID → (g buffers.format).1 ≠ NO_ERROR →
      (BufferSource.new g L buffers).1.getStatus = (g buffers.format).1) ∧
    (0 ≤ heap.heapID → (g buffers.format).1 = NO_ERROR →
      (buffers.hor_stride < 0 ∨ buffers.ver_stride < 0) →
      (BufferSource.new g L buffers).1.getStatus = BAD_VALUE) ∧
    (0 ≤ heap.heapID → (g buffers.format).1 = NO_ERROR →
      0 ≤ buffers.hor_stride → 0 ≤ buffers.ver_stride →
      (BufferSource.new g L buffers).1.getStatus = NO_ERROR) := by
  refine ⟨?_, ?_, ?_, ?_⟩
  · intro hid
    rw [BufferSource.new_bad_heap g L buffers heap hh hid]; rfl
  · intro hid hf
    rw [BufferSource.new_bad_format g L buffers heap hh hid hf]; rfl
  · intro hid hf hs
    rw [BufferSource.new_bad_stride g L buffers heap hh hid hf hs]; rfl
  · intro hid hf h1 h2
    rw [BufferSource.new_valid g L buffers heap hh hid hf (by omega)]; rfl

/-- Witness of C4: a heap with identifier `-1` is refused with `NO_INIT` even
though the format is unknown and both strides are negative. -/
theorem BufferSource_validation_order_witness :
    ({ sampleBuffers with
        format := 99, hor_stride := -1, ver_stride := -1,
        heap := some { sampleHeap with heapID := -1 } } : BufferHeap).heap
      = some { sampleHeap with heapID := -1 } ∧
    (BufferSource.new sampleFormats freshLayer
      { sampleBuffers with
        format := 99, hor_stride := -1, ver_stride := -1,
        heap := some { sampleHeap with heapID := -1 } }).1.getStatus = NO_INIT :=
  ⟨rfl,
   (BufferSource_validation_order sampleFormats freshLayer
      { sampleBuffers with
        format := 99, hor_stride := -1, ver_stride := -1,
        heap := some { sampleHeap with heapID := -1 } }
      { sampleHeap with heapID := -1 } rfl).1 (by decide)⟩

/-! ## Registering without a heap -/

theorem registerBuffers_of_ok (g : FormatLookup) (W : World) (buffers : BufferHeap)
    (h : W.layer.mSource = none)
    (hst : (BufferSource.new g W.layer buffers).1.getStatus = NO_ERROR) :
    LayerBuffer.registerBuffers g W buffers =
      (NO_ERROR,
        { W with
          layer := { (BufferSource.new g W.layer buffers).2 with mSource := some W.sources.length }
          sources := W.sources ++ [Source.buffer (BufferSource.new g W.layer buffers).1] }) := by
  simp [LayerBuffer.registerBuffers, h, hst]

/-- C5: registering a descriptor without heap on a layer without source returns
`NO_ERROR` whatever the format and strides, attaches the new source and turns
blending off; after it, a post at any offset changes nothing: no frame is
installed and the layer is not invalidated. -/
theorem registerBuffers_null_heap (g : FormatLookup) (W : World) (buffers : BufferHeap)
    (h : W.layer.mSource = none) (hh : buffers.heap = none) :
    (LayerBuffer.registerBuffers g W buffers).1 = NO_ERROR ∧
    (LayerBuffer.registerBuffers g W buffers).2.layer.mSource = some W.sources.length ∧
    (LayerBuffer.registerBuffers g W buffers).2.sources[W.sources.length]?
      = some (Source.buffer { BufferSource.init with mBufferHeap := buffers }) ∧
    (LayerBuffer.registerBuffers g W buffers).2.layer.needsBlending = false ∧
    ∀ o : Int,
      LayerBuffer.postBuffer (LayerBuffer.registerBuffers g W buffers).2 o
        = (LayerBuffer.registerBuffers g W buffers).2 := by
  have hnew := BufferSource.new_null_heap g W.layer buffers hh
  have hst : (BufferSource.new g W.layer buffers).1.getStatus = NO_ERROR := by
    rw [hnew]; rfl
  rw [registerBuffers_of_ok g W buffers h hst, hnew]
  refine ⟨rfl, rfl, ?_, rfl, ?_⟩
  · simp
  · intro o
    simp only [LayerBuffer.postBuffer, LayerBuffer.getSource, Source.postBuffer,
      List.getElem?_concat_length]
    rw [BufferSource.postBuffer_null_heap _ _ o hh]
    simp only
    rw [list_set_self _ _ _ (List.getElem?_concat_length _ _)]

/-- Witness of C5: a heap-less descriptor with an unknown format and negative
strides registers on the fresh world, and a post after it changes nothing. -/
theorem registerBuffers_null_heap_witness :
    freshWorld.layer.mSource = none ∧
    (LayerBuffer.registerBuffers sampleFormats freshWorld
      { sampleBuffers with heap := none, format := 99, hor_stride := -3, ver_stride := -5 }).1
      = NO_ERROR ∧
    LayerBuffer.postBuffer (LayerBuffer.registerBuffers sampleFormats freshWorld
        { sampleBuffers with heap := none, format := 99, hor_stride := -3, ver_stride := -5 }).2 64
      = (LayerBuffer.registerBuffers sampleFormats freshWorld
        { sampleBuffers with heap := none, format := 99, hor_stride := -3, ver_stride := -5 }).2 :=
  ⟨rfl,
   (registerBuffers_null_heap sampleFormats freshWorld
      { sampleBuffers with heap := none, format := 99, hor_stride := -3, ver_stride := -5 }
      rfl rfl).1,
   (registerBuffers_null_heap sampleFormats freshWorld
      { sampleBuffers with heap := none, format := 99, hor_stride := -3, ver_stride := -5 }
      rfl rfl).2.2.2.2 64⟩

/-! ## Creating an overlay -/

theorem BufferSource.new_status_of_valid (g : FormatLookup) (L : LayerBuffer)
    (buffers : BufferHeap) (hv : buffers.valid g) :
    (BufferSource.new g L buffers).1.getStatus = NO_ERROR := by
  unfold BufferHeap.valid at hv
  cases hh : buffers.heap with
  | none => rw [BufferSource.new_null_heap g L buffers hh]; rfl
  | some heap =>
    rw [hh] at hv
    obtain ⟨hid, hf, h1, h2⟩ := hv
    rw [BufferSource.new_valid g L buffers heap hh hid hf (by omega)]; rfl

theorem registerBuffers_of_valid (g : FormatLookup) (W : World) (buffers : BufferHeap)
    (h : W.layer.mSource = none) (hv : buffers.valid g) :
    (LayerBuffer.registerBuffers g W buffers).1 = NO_ERROR ∧
    (LayerBuffer.registerBuffers g W buffers).2.layer.mSource = some W.sources.length := by
  rw [registerBuffers_of_ok g W buffers h (BufferSource.new_status_of_valid g W.layer buffers hv)]
  exact ⟨rfl, rfl⟩

theorem createOverlay_absent (W : World) (w h : Nat) (f : Int)
    (hs : W.layer.mSource = none) :
    LayerBuffer.createOverlay OverlayEngine.absent W w h f = (none, W) := by
  simp [LayerBuffer.createOverlay, hs, OverlaySource.new, OverlaySource.destructor]

theorem createOverlay_null_plane (W : World) (w h : Nat) (f : Int)
    (hs : W.layer.mSource = none) :
    LayerBuffer.createOverlay (OverlayEngine.present none) W w h f =
      (none, { W with overlayCalls := W.overlayCalls ++ [OverlayCall.createOverlay w h f] }) := by
  simp [LayerBuffer.createOverlay, hs, OverlaySource.new, OverlaySource.destructor]

theorem createOverlay_plane (W : World) (w h : Nat) (f : Int) (overlay : overlay_t)
    (hs : W.layer.mSource = none) :
    LayerBuffer.createOverlay (OverlayEngine.present (some overlay)) W w h f =
      ((OverlaySource.new (OverlayEngine.present (some overlay)) W.sources.length
          W.overlayCalls w h f).2.1,
        { layer := { W.layer with mSource := some W.sources.length }
          sources := W.sources ++ [Source.overlay
            (OverlaySource.new (OverlayEngine.present (some overlay)) W.sources.length
              W.overlayCalls w h f).1]
          overlayCalls := W.overlayCalls ++
            [OverlayCall.createOverlay w h f,
             OverlayCall.setParameter overlay OverlayParam.OVERLAY_DITHER OVERLAY_ENABLE]
          channels := W.channels ++ [W.sources.length] }) := by
  simp [LayerBuffer.createOverlay, hs, OverlaySource.new]

/-- C6: on a layer without source, when the overlay engine is absent or its
`createOverlay` returns a null plane, `LayerBuffer.createOverlay` returns no
reference and leaves the layer and the store as they were, so that registering
a valid descriptor next returns `NO_ERROR` and attaches; when the device
returns a plane, the call returns a reference and attaches the new
`OverlaySource`, which owns that plane. -/
theorem createOverlay_unattached (g : FormatLookup) (engine : OverlayEngine) (W : World)
    (w h : Nat) (f : Int) (hs : W.layer.mSource = none) :
    (engine = OverlayEngine.absent ∨ engine = OverlayEngine.present none →
      (LayerBuffer.createOverlay engine W w h f).1 = none ∧
      (LayerBuffer.createOverlay engine W w h f).2.layer = W.layer ∧
      (LayerBuffer.createOverlay engine W w h f).2.sources = W.sources ∧
      ∀ buffers : BufferHeap, buffers.valid g →
        (LayerBuffer.registerBuffers g (LayerBuffer.createOverlay engine W w h f).2 buffers).1
          = NO_ERROR ∧
        (LayerBuffer.registerBuffers g (LayerBuffer.createOverlay engine W w h f).2
          buffers).2.layer.mSource = some W.sources.length) ∧
    (∀ overlay : overlay_t, engine = OverlayEngine.present (some overlay) →
      (LayerBuffer.createOverlay engine W w h f).1.isSome = true ∧
      (LayerBuffer.createOverlay engine W w h f).2.layer.mSource = some W.sources.length ∧
      ∃ s : OverlaySource, s.mOverlay = some overlay ∧
        (LayerBuffer.createOverlay engine W w h f).2.sources[W.sources.length]?
          = some (Source.overlay s)) := by
  constructor
  · intro he
    rcases he with he | he
    · subst he
      rw [createOverlay_absent W w h f hs]
      refine ⟨rfl, rfl, rfl, ?_⟩
      intro buffers hv
      exact registerBuffers_of_valid g W buffers hs hv
    · subst he
      rw [createOverlay_null_plane W w h f hs]
      refine ⟨rfl, rfl, rfl, ?_⟩
      intro buffers hv
      exact registerBuffers_of_valid g _ buffers hs hv
  · intro overlay he
    subst he
    rw [createOverlay_plane W w h f overlay hs]
    refine ⟨rfl, rfl, ?_⟩
    refine ⟨_, ?_, List.getElem?_concat_length _ _⟩
    simp [OverlaySource.new]

/-- Witness of C6: on the fresh world a null plane leaves the layer without
source, and registering `sampleBuffers` afterwards succeeds. -/
theorem createOverlay_unattached_witness :
    freshWorld.layer.mSource = none ∧
    (LayerBuffer.createOverlay (OverlayEngine.present none) freshWorld 16 16 4).1 = none ∧
    (LayerBuffer.registerBuffers sampleFormats
      (LayerBuffer.createOverlay (OverlayEngine.present none) freshWorld 16 16 4).2
      sampleBuffers).1 = NO_ERROR :=
  ⟨rfl,
   ((createOverlay_unattached sampleFormats (OverlayEngine.present none) freshWorld 16 16 4
      rfl).1 (Or.inr rfl)).1,
   (((createOverlay_unattached sampleFormats (OverlayEngine.present none) freshWorld 16 16 4
      rfl).1 (Or.inr rfl)).2.2.2 sampleBuffers (by decide)).1⟩

/-! ## Tearing an overlay source down -/

theorem OverlaySource.new_device (engine : OverlayEngine) (this : Nat)
    (calls : List OverlayCall) (w h : Nat) (f : Int) :
    (OverlaySource.new engine this calls w h f).1.mOverlay.isSome = true →
      (OverlaySource.new engine this calls w h f).1.mOverlayDevice = true := by
  cases engine with
  | absent => simp [OverlaySource.new]
  | present plane =>
    cases plane with
    | none => simp [OverlaySource.new]
    | some overlay => simp [OverlaySource.new]

theorem destroyCalls_append (a b : List OverlayCall) :
    destroyCalls (a ++ b) = destroyCalls a ++ destroyCalls b := by
  simp [destroyCalls]

theorem OverlaySource.destroyOverlay_owed (s : OverlaySource) (calls : List OverlayCall) :
    destroyCalls (s.destroyOverlay calls).2 ++ (s.destroyOverlay calls).1.owed
      = destroyCalls calls ++ s.owed ∧
    (s.destroyOverlay calls).1.mOverlayDevice = s.mOverlayDevice ∧
    ((s.destroyOverlay calls).1.mOverlay.isSome = true → s.mOverlay.isSome = true) := by
  cases hov : s.mOverlay with
  | none => simp [OverlaySource.destroyOverlay, hov]
  | some overlay =>
    simp [OverlaySource.destroyOverlay, hov, OverlaySource.owed, destroyCalls,
      OverlayCall.isDestroy]

theorem TeardownCall.run_owed (t : TeardownCall) (st : OverlayState) :
    destroyCalls (t.run st).2.2 ++ (t.run st).1.owed = destroyCalls st.2.2 ++ st.1.owed ∧
    (t.run st).1.mOverlayDevice = st.1.mOverlayDevice ∧
    ((t.run st).1.mOverlay.isSome = true → st.1.mOverlay.isSome = true) := by
  cases t with
  | destroyOverlay => exact OverlaySource.destroyOverlay_owed st.1 st.2.2
  | serverDestroy => exact OverlaySource.destroyOverlay_owed st.1 st.2.2

theorem OverlaySource.destructor_owed (s : OverlaySource) (calls : List OverlayCall)
    (hdev : s.mOverlay.isSome = true → s.mOverlayDevice = true) :
    destroyCalls (s.destructor calls) = destroyCalls calls ++ s.owed := by
  cases hov : s.mOverlay with
  | none => simp [OverlaySource.destructor, hov, OverlaySource.owed]
  | some overlay =>
    have hd : s.mOverlayDevice = true := hdev (by simp [hov])
    simp [OverlaySource.destructor, hov, hd, OverlaySource.owed, destroyCalls,
      OverlayCall.isDestroy]

theorem teardownThenDestruct_owed (ts : List TeardownCall) (st : OverlayState)
    (hdev : st.1.mOverlay.isSome = true → st.1.mOverlayDevice = true) :
    destroyCalls (teardownThenDestruct ts st) = destroyCalls st.2.2 ++ st.1.owed := by
  induction ts generalizing st with
  | nil => exact OverlaySource.destructor_owed st.1 st.2.2 hdev
  | cons t ts ih =>
    obtain ⟨h1, h2, h3⟩ := TeardownCall.run_owed t st
    have := ih (t.run st) (fun hs => by rw [h2]; exact hdev (h3 hs))
    simp only [teardownThenDestruct, teardown] at this ⊢
    rw [this, h1]

/-- C7: for an `OverlaySource` as its constructor leaves it and any sequence of
`destroyOverlay` and `serverDestroy` calls followed by the destructor, the
device's `destroyOverlay` is invoked exactly once, on the plane obtained, if
construction obtained a plane, and never if it did not. -/
theorem destroy_plane_once (engine : OverlayEngine) (this : Nat) (calls : List OverlayCall)
    (w h : Nat) (f : Int) (L : LayerBuffer) (ts : List TeardownCall) :
    destroyCalls (teardownThenDestruct ts
        ((OverlaySource.new engine this calls w h f).1, L,
          (OverlaySource.new engine this calls w h f).2.2))
      = destroyCalls calls ++
        (match engine with
         | OverlayEngine.present (some overlay) => [OverlayCall.destroyOverlay overlay]
         | _ => []) := by
  rw [teardownThenDestruct_owed ts _ (OverlaySource.new_device engine this calls w h f)]
  cases engine with
  | absent => simp [OverlaySource.new, OverlaySource.owed]
  | present plane =>
    cases plane with
    | none => simp [OverlaySource.new, OverlaySource.owed, destroyCalls, OverlayCall.isDestroy]
    | some overlay =>
      simp [OverlaySource.new, OverlaySource.owed, destroyCalls, OverlayCall.isDestroy]

/-! ## The geometry-changed flag -/

theorem OverlaySource.onVisibilityResolved_clear (s : OverlaySource) (L : LayerBuffer)
    (calls : List OverlayCall) (hf : s.mVisibilityChanged = false) :
    s.onVisibilityResolved L calls = (s, calls) := by
  cases hov : s.mOverlay with
  | none => simp [OverlaySource.onVisibilityResolved, hov]
  | some overlay => simp [OverlaySource.onVisibilityResolved, hov, hf]

theorem OverlaySource.onVisibilityResolved_flag (s : OverlaySource) (L : LayerBuffer)
    (calls : List OverlayCall) (hov : s.mOverlay.isSome = true) :
    (s.onVisibilityResolved L calls).1.mVisibilityChanged = false := by
  cases ho : s.mOverlay with
  | none => simp [ho] at hov
  | some overlay =>
    cases hf : s.mVisibilityChanged with
    | false => simp [OverlaySource.onVisibilityResolved, ho, hf]
    | true => simp [OverlaySource.onVisibilityResolved, ho, hf]

/-- Only an `onTransaction` that sees two different sequence numbers raises the flag. -/
theorem OverlayOp.run_flag (op : OverlayOp) (st : OverlayState)
    (h : (op.run st).1.mVisibilityChanged = true) :
    st.1.mVisibilityChanged = true ∨
      (op = OverlayOp.onTransaction ∧ st.2.1.currentSequence ≠ st.2.1.drawingSequence) := by
  cases op with
  | onTransaction =>
    by_cases hs : st.2.1.currentSequence = st.2.1.drawingSequence
    · left
      simpa [OverlayOp.run, OverlaySource.onTransaction, hs] using h
    · right
      exact ⟨rfl, hs⟩
  | onVisibilityResolved =>
    left
    cases hf : st.1.mVisibilityChanged with
    | true => rfl
    | false =>
      simp only [OverlayOp.run] at h
      rw [OverlaySource.onVisibilityResolved_clear st.1 st.2.1 st.2.2 hf] at h
      rw [← hf]; exact h
  | destroyOverlay =>
    left
    cases ho : st.1.mOverlay with
    | none => simpa [OverlayOp.run, OverlaySource.destroyOverlay, ho] using h
    | some overlay => simpa [OverlayOp.run, OverlaySource.destroyOverlay, ho] using h
  | serverDestroy =>
    left
    cases ho : st.1.mOverlay with
    | none =>
      simpa [OverlayOp.run, OverlaySource.serverDestroy, OverlaySource.destroyOverlay, ho] using h
    | some overlay =>
      simpa [OverlayOp.run, OverlaySource.serverDestroy, OverlaySource.destroyOverlay, ho] using h
  | setLayer L =>
    left
    exact h

theorem runOps_quiet_flag (ops : List OverlayOp) (st : OverlayState)
    (hf : st.1.mVisibilityChanged = false) (hq : quiet ops st) :
    (runOps ops st).1.mVisibilityChanged = false := by
  induction ops generalizing st with
  | nil => exact hf
  | cons op ops ih =>
    obtain ⟨h1, h2⟩ := hq
    apply ih (op.run st) _ h2
    cases hn : (op.run st).1.mVisibilityChanged with
    | false => rfl
    | true =>
      rcases OverlayOp.run_flag op st hn with h | ⟨hop, hne⟩
      · rw [hf] at h; exact absurd h (by decide)
      · exact absurd (h1 hop) hne

/-- C8: `onVisibilityResolved` makes no device call when the geometry-changed
flag is clear; the constructor leaves the flag clear and an operation raises
it only if it is an `onTransaction` that sees two different sequence numbers;
so after an `onVisibilityResolved` on a source that owns a plane, and after any
further operations among which no such `onTransaction` occurs, a call of
`onVisibilityResolved` changes neither the source nor the device trace. -/
theorem onVisibilityResolved_flag_gated (s : OverlaySource) (L : LayerBuffer)
    (calls : List OverlayCall) (ops : List OverlayOp) :
    (s.mVisibilityChanged = false → (s.onVisibilityResolved L calls).2 = calls) ∧
    (∀ engine this calls0 w h f,
      (OverlaySource.new engine this calls0 w h f).1.mVisibilityChanged = false) ∧
    (∀ op : OverlayOp, (op.run (s, L, calls)).1.mVisibilityChanged = true →
      s.mVisibilityChanged = true ∨
        (op = OverlayOp.onTransaction ∧ L.currentSequence ≠ L.drawingSequence)) ∧
    (s.mOverlay.isSome = true →
      quiet ops (OverlayOp.onVisibilityResolved.run (s, L, calls)) →
      OverlayOp.onVisibilityResolved.run
          (runOps ops (OverlayOp.onVisibilityResolved.run (s, L, calls)))
        = runOps ops (OverlayOp.onVisibilityResolved.run (s, L, calls))) := by
  refine ⟨?_, ?_, ?_, ?_⟩
  · intro hf
    rw [OverlaySource.onVisibilityResolved_clear s L calls hf]
  · intro engine this calls0 w h f
    cases engine with
    | absent => rfl
    | present plane =>
      cases plane with
      | none => rfl
      | some overlay => rfl
  · intro op h
    exact OverlayOp.run_flag op (s, L, calls) h
  · intro hov hq
    have h0 : (OverlayOp.onVisibilityResolved.run (s, L, calls)).1.mVisibilityChanged = false :=
      OverlaySource.onVisibilityResolved_flag s L calls hov
    have h1 := runOps_quiet_flag ops _ h0 hq
    generalize runOps ops (OverlayOp.onVisibilityResolved.run (s, L, calls)) = st at h1
    simp only [OverlayOp.run]
    rw [OverlaySource.onVisibilityResolved_clear st.1 st.2.1 st.2.2 h1]

/-- Witness of C8: `flaggedSource` owns a plane and has its flag raised; after one
`onVisibilityResolved`, a layer change and an `onTransaction` that sees equal
sequence numbers, a further `onVisibilityResolved` changes nothing. -/
theorem onVisibilityResolved_flag_gated_witness :
    flaggedSource.mOverlay.isSome = true ∧
    quiet [OverlayOp.setLayer freshLayer, OverlayOp.onTransaction]
      (OverlayOp.onVisibilityResolved.run (flaggedSource, movedLayer, [])) ∧
    OverlayOp.onVisibilityResolved.run
        (runOps [OverlayOp.setLayer freshLayer, OverlayOp.onTransaction]
          (OverlayOp.onVisibilityResolved.run (flaggedSource, movedLayer, [])))
      = runOps [OverlayOp.setLayer freshLayer, OverlayOp.onTransaction]
          (OverlayOp.onVisibilityResolved.run (flaggedSource, movedLayer, [])) :=
  ⟨by decide, by decide,
   (onVisibilityResolved_flag_gated flaggedSource movedLayer []
      [OverlayOp.setLayer freshLayer, OverlayOp.onTransaction]).2.2.2 (by decide) (by decide)⟩

/-! ## Surface-level posting and unregistering -/

theorem Source.postBuffer_mSource (W : World) (p : Nat) (o : Int) :
    (Source.postBuffer W p o).layer.mSource = W.layer.mSource := by
  unfold Source.postBuffer
  cases hp : W.sources[p]? with
  | none => rfl
  | some src =>
    cases src with
    | overlay s => rfl
    | buffer s =>
      simp only
      cases hh : s.mBufferHeap.heap with
      | none => rw [BufferSource.postBuffer_null_heap s W.layer o hh]
      | some heap =>
        by_cases hc : (to_size_t o + s.mBufferSize) % SIZE_MOD ≤ heap.getSize
        · rw [BufferSource.postBuffer_accept s W.layer heap o hh hc]; rfl
        · rw [BufferSource.postBuffer_reject s W.layer heap o hh (by omega)]

theorem Source.unregisterBuffers_mSource (W : World) (p : Nat) :
    (Source.unregisterBuffers W p).layer.mSource = W.layer.mSource ∧
    (Source.unregisterBuffers W p).sources.length = W.sources.length := by
  unfold Source.unregisterBuffers
  cases hp : W.sources[p]? with
  | none => exact ⟨rfl, rfl⟩
  | some src =>
    cases src with
    | overlay s => exact ⟨rfl, rfl⟩
    | buffer s => simp [BufferSource.unregisterBuffers, LayerBuffer.invalidate]

theorem Source.unregisterBuffers_clear (W : World) (p : Nat) :
    Source.unregisterBuffers { W with layer := { W.layer with mSource := none } } p
      = { Source.unregisterBuffers W p with
          layer := { (Source.unregisterBuffers W p).layer with mSource := none } } := by
  unfold Source.unregisterBuffers
  cases hp : W.sources[p]? with
  | none => rfl
  | some src =>
    cases src with
    | overlay s => rfl
    | buffer s => rfl

theorem World.decStrong_fields (W : World) (q : Nat) :
    (W.decStrong q).layer = W.layer ∧ (W.decStrong q).sources = W.sources ∧
    (W.decStrong q).channels = W.channels := by
  unfold World.decStrong
  split_ifs
  · exact ⟨rfl, rfl, rfl⟩
  · cases hq : W.sources[q]? with
    | none => exact ⟨rfl, rfl, rfl⟩
    | some src =>
      cases src with
      | buffer s => exact ⟨rfl, rfl, rfl⟩
      | overlay s => exact ⟨rfl, rfl, rfl⟩

theorem World.decStrong_of_channel (W : World) (q : Nat) (h : q ∈ W.channels) :
    W.decStrong q = W := by
  simp [World.decStrong, h]

theorem World.decStrong_of_buffer (W : World) (q : Nat) (s : BufferSource)
    (h : W.sources[q]? = some (Source.buffer s)) : W.decStrong q = W := by
  unfold World.decStrong
  split_ifs
  · rfl
  · simp [h]

theorem World.decStrong_last (W : World) (q : Nat) (s : OverlaySource)
    (hl : W.layer.mSource ≠ some q) (hc : q ∉ W.channels)
    (h : W.sources[q]? = some (Source.overlay s)) :
    W.decStrong q = { W with overlayCalls := s.destructor W.overlayCalls } := by
  simp [World.decStrong, hl, hc, h]

theorem Source.unregisterBuffers_channels (W : World) (p : Nat) :
    (Source.unregisterBuffers W p).channels = W.channels := by
  unfold Source.unregisterBuffers
  cases hp : W.sources[p]? with
  | none => rfl
  | some src =>
    cases src with
    | overlay s => rfl
    | buffer s => rfl

/-- C9: without a source, the surface-level `unregisterBuffers` and `postBuffer`
change nothing. With the source at `p` attached, `unregisterBuffers` is the
source's own `unregisterBuffers` run on the layer with the pointer cleared,
followed by the end of the local reference, which leaves the same world as
forwarding first and clearing the pointer afterwards; it leaves `getSource`
empty, and registering a valid descriptor next returns `NO_ERROR` and
attaches; `postBuffer` is the source's own `postBuffer` and leaves the same
source attached. Unless the source is an overlay source that owns a plane and
that no overlay channel holds, the end of the local reference changes nothing
and `unregisterBuffers` is the forwarded call on the cleared layer alone. -/
theorem surface_forwarding (g : FormatLookup) (W : World) :
    (W.layer.mSource = none →
      LayerBuffer.unregisterBuffers W = W ∧ ∀ o : Int, LayerBuffer.postBuffer W o = W) ∧
    (∀ p : Nat, W.layer.mSource = some p →
      LayerBuffer.unregisterBuffers W
        = World.decStrong
            (Source.unregisterBuffers { W with layer := { W.layer with mSource := none } } p) p ∧
      LayerBuffer.unregisterBuffers W
        = World.decStrong
            { Source.unregisterBuffers W p with
              layer := { (Source.unregisterBuffers W p).layer with mSource := none } } p ∧
      (LayerBuffer.unregisterBuffers W).layer.getSource = none ∧
      (∀ s : BufferSource, W.sources[p]? = some (Source.buffer s) →
        (LayerBuffer.unregisterBuffers W).sources[p]?
          = some (Source.buffer (s.unregisterBuffers W.layer).1)) ∧
      (∀ buffers : BufferHeap, buffers.valid g →
        (LayerBuffer.registerBuffers g (LayerBuffer.unregisterBuffers W) buffers).1 = NO_ERROR ∧
        (LayerBuffer.registerBuffers g (LayerBuffer.unregisterBuffers W) buffers).2.layer.mSource
          = some W.sources.length) ∧
      (∀ o : Int,
        LayerBuffer.postBuffer W o = Source.postBuffer W p o ∧
        (LayerBuffer.postBuffer W o).layer.getSource = some p ∧
        (∀ s : BufferSource, W.sources[p]? = some (Source.buffer s) →
          (LayerBuffer.postBuffer W o).sources[p]?
            = some (Source.buffer (s.postBuffer W.layer o).1))) ∧
      ((∀ (s : OverlaySource) (overlay : overlay_t),
          W.sources[p]? = some (Source.overlay s) → s.mOverlay = some overlay →
          s.mOverlayDevice = true → p ∈ W.channels) →
        LayerBuffer.unregisterBuffers W
          = Source.unregisterBuffers { W with layer := { W.layer with mSource := none } } p ∧
        LayerBuffer.unregisterBuffers W
          = { Source.unregisterBuffers W p with
              layer := { (Source.unregisterBuffers W p).layer with mSource := none } })) := by
  constructor
  · intro h
    constructor
    · cases W with
      | mk layer sources overlayCalls channels =>
        cases layer
        simp only at h
        subst h
        rfl
    · intro o
      simp [LayerBuffer.postBuffer, LayerBuffer.getSource, h]
  · intro p hp
    have hun : LayerBuffer.unregisterBuffers W
        = World.decStrong
            (Source.unregisterBuffers { W with layer := { W.layer with mSource := none } } p)
            p := by
      simp [LayerBuffer.unregisterBuffers, LayerBuffer.clearSource, hp]
    have hms := Source.unregisterBuffers_mSource
      { W with layer := { W.layer with mSource := none } } p
    have hdf := World.decStrong_fields
      (Source.unregisterBuffers { W with layer := { W.layer with mSource := none } } p) p
    refine ⟨hun, ?_, ?_, ?_, ?_, ?_, ?_⟩
    · rw [hun, Source.unregisterBuffers_clear W p]
    · rw [hun, LayerBuffer.getSource, hdf.1, hms.1]
    · intro s hs
      have hlt : p < W.sources.length := by
        rcases List.getElem?_eq_some.mp hs with ⟨hlt, _⟩
        exact hlt
      rw [hun, hdf.2.1]
      simp only [Source.unregisterBuffers, hs]
      rw [List.getElem?_set_self hlt]
      rfl
    · intro buffers hv
      have hnone : (LayerBuffer.unregisterBuffers W).layer.mSource = none := by
        rw [hun, hdf.1, hms.1]
      have hlen : (LayerBuffer.unregisterBuffers W).sources.length = W.sources.length := by
        rw [hun, hdf.2.1, hms.2]
      have := registerBuffers_of_valid g (LayerBuffer.unregisterBuffers W) buffers hnone hv
      rw [hlen] at this
      exact this
    · intro o
      have hpo : LayerBuffer.postBuffer W o = Source.postBuffer W p o := by
        simp [LayerBuffer.postBuffer, LayerBuffer.getSource, hp]
      refine ⟨hpo, ?_, ?_⟩
      · rw [hpo, LayerBuffer.getSource, Source.postBuffer_mSource, hp]
      · intro s hs
        have hlt : p < W.sources.length := by
          rcases List.getElem?_eq_some.mp hs with ⟨hlt, _⟩
          exact hlt
        rw [hpo]
        simp only [Source.postBuffer, hs]
        rw [List.getElem?_set_self hlt]
    · intro hor
      have hkeep : World.decStrong
          (Source.unregisterBuffers { W with layer := { W.layer with mSource := none } } p) p
          = Source.unregisterBuffers { W with layer := { W.layer with mSource := none } } p := by
        cases hsrc : W.sources[p]? with
        | none =>
          simp [World.decStrong, Source.unregisterBuffers, hsrc]
        | some src =>
          cases src with
          | buffer s =>
            have hlt : p < W.sources.length := by
              rcases List.getElem?_eq_some.mp hsrc with ⟨hlt, _⟩
              exact hlt
            apply World.decStrong_of_buffer _ p (s.unregisterBuffers W.layer).1
            simp only [Source.unregisterBuffers, hsrc]
            rw [List.getElem?_set_self hlt]
            rfl
          | overlay s =>
            by_cases hc : p ∈ W.channels
            · apply World.decStrong_of_channel
              rw [Source.unregisterBuffers_channels]
              exact hc
            · have hdes : ∀ calls : List OverlayCall, s.destructor calls = calls := by
                intro calls
                cases hov : s.mOverlay with
                | none => simp [OverlaySource.destructor, hov]
                | some overlay =>
                  cases hd : s.mOverlayDevice with
                  | false => simp [OverlaySource.destructor, hov, hd]
                  | true => exact absurd (hor s overlay hsrc hov hd) hc
              simp [World.decStrong, Source.unregisterBuffers, hsrc, hc, hdes]
      constructor
      · rw [hun, hkeep]
      · rw [hun, hkeep, Source.unregisterBuffers_clear W p]

/-- Witness of C9: on `attachedWorld`, whose source is at address 0, the
surface-level `unregisterBuffers` leaves no source attached and `sampleBuffers`
registers again. -/
theorem surface_forwarding_witness :
    attachedWorld.layer.mSource = some 0 ∧
    (LayerBuffer.unregisterBuffers attachedWorld).layer.getSource = none ∧
    (LayerBuffer.registerBuffers sampleFormats (LayerBuffer.unregisterBuffers attachedWorld)
      sampleBuffers).1 = NO_ERROR :=
  ⟨by decide,
   ((surface_forwarding sampleFormats attachedWorld).2 0 (by decide)).2.2.1,
   (((surface_forwarding sampleFormats attachedWorld).2 0 (by decide)).2.2.2.2.1
      sampleBuffers (by decide)).1⟩

/-! ## The surface proxy -/

/-- C10: when the owning layer is gone, the proxy's `registerBuffers` returns
`NO_INIT` (an error code), `createOverlay` returns no reference, and
`postBuffer` and `unregisterBuffers` do nothing; when the owner is alive each
call returns what the owner's operation returns and leaves the owner as that
operation leaves it. -/
theorem SurfaceBuffer_forwarding (g : FormatLookup) (engine : OverlayEngine)
    (buffers : BufferHeap) (w h : Nat) (f : Int) (o : Int) :
    SurfaceBuffer.registerBuffers g none buffers = (NO_INIT, none) ∧
    NO_INIT ≠ NO_ERROR ∧
    SurfaceBuffer.createOverlay engine none w h f = (none, none) ∧
    SurfaceBuffer.postBuffer none o = none ∧
    SurfaceBuffer.unregisterBuffers none = none ∧
    ∀ W : World,
      SurfaceBuffer.registerBuffers g (some W) buffers
        = ((LayerBuffer.registerBuffers g W buffers).1,
            some (LayerBuffer.registerBuffers g W buffers).2) ∧
      SurfaceBuffer.createOverlay engine (some W) w h f
        = ((LayerBuffer.createOverlay engine W w h f).1,
            some (LayerBuffer.createOverlay engine W w h f).2) ∧
      SurfaceBuffer.postBuffer (some W) o = some (LayerBuffer.postBuffer W o) ∧
      SurfaceBuffer.unregisterBuffers (some W) = some (LayerBuffer.unregisterBuffers W) :=
  ⟨rfl, by decide, rfl, rfl, rfl, fun _ => ⟨rfl, rfl, rfl, rfl⟩⟩

/-! ## Posted frames -/

theorem BufferSource.new_of_ok (g : FormatLookup) (L : LayerBuffer) (buffers : BufferHeap)
    (heap : IMemoryHeap) (hh : buffers.heap = some heap)
    (hst : (BufferSource.new g L buffers).1.getStatus = NO_ERROR) :
    0 ≤ heap.heapID ∧ (g buffers.format).1 = NO_ERROR ∧
      ¬ (buffers.hor_stride < 0 ∨ buffers.ver_stride < 0) := by
  by_cases hid : 0 ≤ heap.heapID
  · by_cases hf : (g buffers.format).1 = NO_ERROR
    · by_cases hs : buffers.hor_stride < 0 ∨ buffers.ver_stride < 0
      · rw [BufferSource.new_bad_stride g L buffers heap hh hid hf hs] at hst
        have hne : BAD_VALUE ≠ NO_ERROR := by decide
        exact absurd hst hne
      · exact ⟨hid, hf, hs⟩
    · rw [BufferSource.new_bad_format g L buffers heap hh hid hf] at hst
      exact absurd hst hf
  · rw [BufferSource.new_bad_heap g L buffers heap hh (by omega)] at hst
    have hne : NO_INIT ≠ NO_ERROR := by decide
    exact absurd hst hne

/-- The bounds check of `postBuffer` uses `mBufferSize`, computed from the raw
strides, while the frame it installs takes its extents from the strides
defaulted to the width and height. For C12: `zeroStrideBuffers` registers with
an expected frame size of 0, a post at offset 4000 into the heap of 4096 bytes
is accepted, and the frame it installs, 16 x 16 pixels of two bytes, ends at
byte 4512. -/
theorem zero_stride_frame_outside_heap :
    (LayerBuffer.registerBuffers sampleFormats freshWorld zeroStrideBuffers).1 = NO_ERROR ∧
    zeroStrideSource.mBufferSize = 0 ∧
    zeroStrideSource.postBuffer freshLayer 4000 =
      ({ zeroStrideSource with mBuffer := some (Buffer.new zeroStrideBuffers 4000) },
        freshLayer.invalidate) ∧
    (Buffer.new zeroStrideBuffers 4000).mNativeBuffer.img.w = 16 ∧
    (Buffer.new zeroStrideBuffers 4000).mNativeBuffer.img.h = 16 ∧
    (Buffer.new zeroStrideBuffers 4000).frameEnd sampleFormats = 4512 ∧
    ¬ ((Buffer.new zeroStrideBuffers 4000).frameEnd sampleFormats
        ≤ (sampleHeap.getSize : Int)) := by
  decide

theorem BufferSource.new_heap_of_ok (g : FormatLookup) (L : LayerBuffer) (buffers : BufferHeap)
    (heap : IMemoryHeap) (hh : buffers.heap = some heap)
    (hst : (BufferSource.new g L buffers).1.getStatus = NO_ERROR) :
    (BufferSource.new g L buffers).1.mBufferHeap = buffers := by
  obtain ⟨hid, hf, hs⟩ := BufferSource.new_of_ok g L buffers heap hh hst
  rw [BufferSource.new_valid g L buffers heap hh hid hf hs]

theorem to_uint32_of_nonneg (x : Int) (h0 : 0 ≤ x) (h1 : x < (UINT32_MOD : Int)) :
    (to_uint32 x : Int) = x := by
  unfold to_uint32
  rw [Int.emod_eq_of_lt h0 h1]
  exact Int.toNat_of_nonneg h0

theorem to_int_of_small (n : Nat) (h : n < 2147483648) : to_int n = (n : Int) := by
  have hmod : n % UINT32_MOD = n := Nat.mod_eq_of_lt (by unfold UINT32_MOD; omega)
  unfold to_int
  rw [hmod, if_pos h]

/-- An accepted post replaces the current frame, whatever it was, by the frame
built from the stored descriptor, and invalidates the layer. -/
theorem BufferSource.postBuffer_of_accepted (s : BufferSource) (L : LayerBuffer)
    (heap : IMemoryHeap) (o : Int) (hh : s.mBufferHeap.heap = some heap)
    (hacc : s.postBuffer L o ≠ (s, L)) :
    s.postBuffer L o = ({ s with mBuffer := some (Buffer.new s.mBufferHeap o) }, L.invalidate) := by
  by_cases hc : (to_size_t o + s.mBufferSize) % SIZE_MOD ≤ heap.getSize
  · exact BufferSource.postBuffer_accept s L heap o hh hc
  · exact absurd (BufferSource.postBuffer_reject s L heap o hh (by omega)) hacc

/-- C13, as amended: a successful registration stores the descriptor in the
source, and posts keep it there. For every source that holds the descriptor
`buffers` with a present heap, whatever its current frame, a post that is
accepted (it does not leave the source and the layer as they were) installs as
current frame a new `Buffer` whose byte offset is `o` converted to `uint32_t`
(`o` itself for `0 ≤ o < 2^32`), whose format is the descriptor's, whose crop
rectangle is `(0, 0, int(w), int(h))` (`(0, 0, w, h)` when both are at most
`INT_MAX`), whose image width is `hor_stride` if that is non-zero and `w`
otherwise, and whose image height is `ver_stride` if that is non-zero and `h`
otherwise (strides as `uint32_t`, themselves when non-negative); and the layer
is invalidated once. -/
theorem postBuffer_installs_frame (g : FormatLookup) (L0 L : LayerBuffer) (s : BufferSource)
    (buffers : BufferHeap) (heap : IMemoryHeap) (o : Int)
    (hb : s.mBufferHeap = buffers) (hh : buffers.heap = some heap)
    (hacc : s.postBuffer L o ≠ (s, L)) :
    ((BufferSource.new g L0 buffers).1.getStatus = NO_ERROR →
      (BufferSource.new g L0 buffers).1.mBufferHeap = buffers) ∧
    (s.postBuffer L o).1.mBufferHeap = buffers ∧
    (s.postBuffer L o).1.getBuffer = some (Buffer.new buffers o) ∧
    (Buffer.new buffers o).mNativeBuffer.img.offset = to_uint32 o ∧
    (0 ≤ o → o < (UINT32_MOD : Int) →
      ((Buffer.new buffers o).mNativeBuffer.img.offset : Int) = o) ∧
    (Buffer.new buffers o).mNativeBuffer.img.format = buffers.format ∧
    (Buffer.new buffers o).mNativeBuffer.crop
      = { left := 0, top := 0, right := to_int buffers.w, bottom := to_int buffers.h } ∧
    (buffers.w < 2147483648 → buffers.h < 2147483648 →
      (Buffer.new buffers o).mNativeBuffer.crop
        = { left := 0, top := 0, right := buffers.w, bottom := buffers.h }) ∧
    (Buffer.new buffers o).mNativeBuffer.img.w
      = (if buffers.hor_stride ≠ 0 then to_uint32 buffers.hor_stride else buffers.w) ∧
    (0 ≤ buffers.hor_stride → buffers.hor_stride < (UINT32_MOD : Int) →
      ((Buffer.new buffers o).mNativeBuffer.img.w : Int)
        = (if buffers.hor_stride ≠ 0 then buffers.hor_stride else (buffers.w : Int))) ∧
    (Buffer.new buffers o).mNativeBuffer.img.h
      = (if buffers.ver_stride ≠ 0 then to_uint32 buffers.ver_stride else buffers.h) ∧
    (0 ≤ buffers.ver_stride → buffers.ver_stride < (UINT32_MOD : Int) →
      ((Buffer.new buffers o).mNativeBuffer.img.h : Int)
        = (if buffers.ver_stride ≠ 0 then buffers.ver_stride else (buffers.h : Int))) ∧
    (s.postBuffer L o).2 = L.invalidate ∧
    L.invalidate.invalidations = L.invalidations + 1 := by
  have hh2 : s.mBufferHeap.heap = some heap := by rw [hb]; exact hh
  have hpost := BufferSource.postBuffer_of_accepted s L heap o hh2 hacc
  rw [hpost, hb]
  refine ⟨fun hst => BufferSource.new_heap_of_ok g L0 buffers heap hh hst, rfl, rfl, rfl, ?_, rfl,
    rfl, ?_, rfl, ?_, rfl, ?_, rfl, rfl⟩
  · intro h0 h1
    exact to_uint32_of_nonneg o h0 h1
  · intro hw hhh
    simp only [Buffer.new]
    rw [to_int_of_small _ hw, to_int_of_small _ hhh]
  · intro h0 h1
    simp only [Buffer.new]
    split_ifs with hz
    · exact to_uint32_of_nonneg _ h0 h1
    · rfl
  · intro h0 h1
    simp only [Buffer.new]
    split_ifs with hz
    · exact to_uint32_of_nonneg _ h0 h1
    · rfl

/-- Witness of C13 as amended: `postedSource` holds `sampleBuffers` and already
shows the frame at offset 0; the post at offset 1024 is accepted and replaces
that frame by the frame built from `sampleBuffers` at offset 1024. -/
theorem postBuffer_installs_frame_witness :
    postedSource.mBufferHeap = sampleBuffers ∧
    sampleBuffers.heap = some sampleHeap ∧
    postedSource.getBuffer = some (Buffer.new sampleBuffers 0) ∧
    postedSource.postBuffer freshLayer 1024 ≠ (postedSource, freshLayer) ∧
    (postedSource.postBuffer freshLayer 1024).1.getBuffer
      = some (Buffer.new sampleBuffers 1024) :=
  ⟨by decide, rfl, by decide, by decide,
   (postBuffer_installs_frame sampleFormats freshLayer freshLayer postedSource sampleBuffers
      sampleHeap 1024 (by decide) rfl (by decide)).2.2.1⟩

/-- Counterexample to C13 as stated: `sampleSource` holds the registered
descriptor `sampleBuffers` (frames of 512 bytes, heap of 4096); the post at
offset `-512` is accepted, since `size_t(-512) + 512` wraps to 0, and the
frame it installs has byte offset `2^32 - 512`, not `-512`. And `broadBuffers`,
whose width is `2^31`, registers, and the frame an accepted post installs has
the crop rectangle `(0, 0, -2^31, 16)`, not `(0, 0, 2^31, 16)`. -/
theorem postBuffer_negative_offset_stored_unsigned :
    (LayerBuffer.registerBuffers sampleFormats freshWorld sampleBuffers).1 = NO_ERROR ∧
    (LayerBuffer.registerBuffers sampleFormats freshWorld sampleBuffers).2.sources[0]?
      = some (Source.buffer sampleSource) ∧
    sampleSource.postBuffer freshLayer (-512) ≠ (sampleSource, freshLayer) ∧
    (sampleSource.postBuffer freshLayer (-512)).1.getBuffer
      = some (Buffer.new sampleBuffers (-512)) ∧
    (Buffer.new sampleBuffers (-512)).mNativeBuffer.img.offset = 4294966784 ∧
    ((Buffer.new sampleBuffers (-512)).mNativeBuffer.img.offset : Int) ≠ -512 ∧
    (LayerBuffer.registerBuffers sampleFormats freshWorld broadBuffers).1 = NO_ERROR ∧
    (BufferSource.new sampleFormats freshLayer broadBuffers).1.postBuffer freshLayer 0
      ≠ ((BufferSource.new sampleFormats freshLayer broadBuffers).1, freshLayer) ∧
    ((BufferSource.new sampleFormats freshLayer broadBuffers).1.postBuffer freshLayer 0).1.getBuffer
      = some (Buffer.new broadBuffers 0) ∧
    (Buffer.new broadBuffers 0).mNativeBuffer.crop
      = { left := 0, top := 0, right := -2147483648, bottom := 16 } ∧
    (Buffer.new broadBuffers 0).mNativeBuffer.crop
      ≠ { left := 0, top := 0, right := broadBuffers.w, bottom := broadBuffers.h } := by
  decide

/-! ## The expected frame size -/

theorem to_size_t_natCast (n : Nat) : to_size_t (n : Int) = n % SIZE_MOD := by
  unfold to_size_t
  rw [← Int.natCast_mod]
  exact Int.toNat_natCast _

/-- Where the product does not reach `2^32`, the unsigned product is the product. -/
theorem frame_size_exact (scan : Nat) (vs : Int) (h0 : 0 ≤ vs)
    (hlt : (scan : Int) * vs < (SIZE_MOD : Int)) :
    ((((scan % SIZE_MOD) * to_size_t vs) % SIZE_MOD : Nat) : Int) = (scan : Int) * vs := by
  obtain ⟨n, rfl⟩ := Int.eq_ofNat_of_zero_le h0
  rw [to_size_t_natCast, ← Nat.mul_mod]
  have h2 : scan * n < SIZE_MOD := by exact_mod_cast hlt
  rw [Nat.mod_eq_of_lt h2]
  push_cast
  rfl

/-- What a successful registration of a descriptor with a heap does: blending
follows the alpha bit range, one visibility transaction is forced, and the
expected frame size is the unsigned product of the scanline size and the
vertical stride, which is their product where that stays below `2^32`. -/
theorem registerBuffers_valid_effects (g : FormatLookup) (W : World) (buffers : BufferHeap)
    (heap : IMemoryHeap) (h : W.layer.mSource = none) (hh : buffers.heap = some heap)
    (hst : (BufferSource.new g W.layer buffers).1.getStatus = NO_ERROR) :
    ((LayerBuffer.registerBuffers g W buffers).2.layer.needsBlending = true ↔
      ((g buffers.format).2.h_alpha : Int) - ((g buffers.format).2.l_alpha : Int) > 0) ∧
    (LayerBuffer.registerBuffers g W buffers).2.layer.visibilityTransactions
      = W.layer.visibilityTransactions + 1 ∧
    (LayerBuffer.registerBuffers g W buffers).2.sources[W.sources.length]?
      = some (Source.buffer (BufferSource.new g W.layer buffers).1) ∧
    (BufferSource.new g W.layer buffers).1.mBufferSize
      = (((g buffers.format).2.getScanlineSize buffers.hor_stride % SIZE_MOD)
          * to_size_t buffers.ver_stride) % SIZE_MOD ∧
    (((g buffers.format).2.getScanlineSize buffers.hor_stride : Int) * buffers.ver_stride
        < (SIZE_MOD : Int) →
      ((BufferSource.new g W.layer buffers).1.mBufferSize : Int)
        = ((g buffers.format).2.getScanlineSize buffers.hor_stride : Int)
            * buffers.ver_stride) := by
  obtain ⟨hid, hf, hs⟩ := BufferSource.new_of_ok g W.layer buffers heap hh hst
  rw [registerBuffers_of_ok g W buffers h hst]
  rw [BufferSource.new_valid g W.layer buffers heap hh hid hf hs]
  refine ⟨?_, rfl, ?_, rfl, ?_⟩
  · simp [LayerBuffer.needsBlending, LayerBuffer.setNeedsBlending,
      LayerBuffer.forceVisibilityTransaction]
  · simp
  · intro hlt
    exact frame_size_exact _ _ (by omega) hlt

/-- The product of the scanline size and the vertical stride is computed in
`size_t` and wraps at `2^32`. For C14: `hugeBuffers` passes validation, its
scanline size times its vertical stride is `2^32`, and the expected frame size
stored is 0; a post at offset 4096, the very end of the heap, is then
accepted. -/
theorem frame_size_product_wraps :
    hugeBuffers.valid sampleFormats ∧
    (LayerBuffer.registerBuffers sampleFormats freshWorld hugeBuffers).1 = NO_ERROR ∧
    ((sampleFormats hugeBuffers.format).2.getScanlineSize hugeBuffers.hor_stride : Int)
      * hugeBuffers.ver_stride = 4294967296 ∧
    hugeSource.mBufferSize = 0 ∧
    (hugeSource.mBufferSize : Int)
      ≠ ((sampleFormats hugeBuffers.format).2.getScanlineSize hugeBuffers.hor_stride : Int)
          * hugeBuffers.ver_stride ∧
    (hugeSource.postBuffer freshLayer 4096).1.mBuffer = some (Buffer.new hugeBuffers 4096) := by
  decide

/-- For `0 ≤ o` with `o + F < 2^32`: a post with `o + F > S` changes nothing. -/
theorem postBuffer_accepted_bounds (s : BufferSource) (L : LayerBuffer) (heap : IMemoryHeap)
    (o : Int) (hh : s.mBufferHeap.heap = some heap) (ho : 0 ≤ o)
    (hlt : o + (s.mBufferSize : Int) < (SIZE_MOD : Int)) :
    (¬ (o + (s.mBufferSize : Int) ≤ (heap.getSize : Int)) → s.postBuffer L o = (s, L)) ∧
    (to_size_t o + s.mBufferSize) % SIZE_MOD = to_size_t o + s.mBufferSize ∧
    (to_size_t o : Int) = o := by
  have hoM : o < (SIZE_MOD : Int) := by
    have : (0 : Int) ≤ (s.mBufferSize : Int) := Int.ofNat_nonneg _
    omega
  have hconv := to_size_t_of_nonneg o ho hoM
  have hno : to_size_t o + s.mBufferSize < SIZE_MOD := by
    have : ((to_size_t o + s.mBufferSize : Nat) : Int) < (SIZE_MOD : Int) := by
      push_cast; rw [hconv]; exact hlt
    exact_mod_cast this
  have hmod := Nat.mod_eq_of_lt hno
  refine ⟨?_, hmod, hconv⟩
  intro hgt
  apply BufferSource.postBuffer_reject s L heap o hh
  rw [hmod]
  have : (heap.getSize : Int) < ((to_size_t o + s.mBufferSize : Nat) : Int) := by
    push_cast; rw [hconv]; omega
  exact_mod_cast this

/-- Within the range where nothing wraps and with both strides non-zero, the
frame an accepted post installs ends inside the heap. -/
theorem postBuffer_frame_inside_heap (g : FormatLookup) (L0 L : LayerBuffer)
    (buffers : BufferHeap) (heap : IMemoryHeap) (o : Int)
    (hh : buffers.heap = some heap)
    (hst : (BufferSource.new g L0 buffers).1.getStatus = NO_ERROR)
    (hhs : buffers.hor_stride ≠ 0) (hvs : buffers.ver_stride ≠ 0)
    (hhs31 : buffers.hor_stride < 2147483648) (hvs31 : buffers.ver_stride < 2147483648)
    (ho : 0 ≤ o)
    (hlt : o + ((g buffers.format).2.getScanlineSize buffers.hor_stride : Int)
        * buffers.ver_stride < (SIZE_MOD : Int))
    (hacc : (BufferSource.new g L0 buffers).1.postBuffer L o
      ≠ ((BufferSource.new g L0 buffers).1, L)) :
    ((BufferSource.new g L0 buffers).1.postBuffer L o).1.getBuffer
      = some (Buffer.new buffers o) ∧
    (Buffer.new buffers o).frameEnd g ≤ (heap.getSize : Int) := by
  obtain ⟨hid, hf, hs⟩ := BufferSource.new_of_ok g L0 buffers heap hh hst
  have hv0 : 0 ≤ buffers.ver_stride := by omega
  have hh0 : 0 ≤ buffers.hor_stride := by omega
  have hprod0 : 0 ≤ ((g buffers.format).2.getScanlineSize buffers.hor_stride : Int)
      * buffers.ver_stride := mul_nonneg (Int.ofNat_nonneg _) hv0
  have hsize := frame_size_exact ((g buffers.format).2.getScanlineSize buffers.hor_stride)
    buffers.ver_stride hv0 (by omega)
  have hF : ((BufferSource.new g L0 buffers).1.mBufferSize : Int)
      = ((g buffers.format).2.getScanlineSize buffers.hor_stride : Int) * buffers.ver_stride := by
    rw [BufferSource.new_valid g L0 buffers heap hh hid hf hs]
    exact hsize
  have hheap := BufferSource.new_heap_of_ok g L0 buffers heap hh hst
  generalize (BufferSource.new g L0 buffers).1 = s at hacc hheap hF ⊢
  have hh2 : s.mBufferHeap.heap = some heap := by rw [hheap]; exact hh
  have hpost := BufferSource.postBuffer_of_accepted s L heap o hh2 hacc
  refine ⟨by rw [hpost, hheap]; rfl, ?_⟩
  have hiff := (postBuffer_accepted_bounds s L heap o hh2 ho (by rw [hF]; exact hlt)).1
  have hle : o + (s.mBufferSize : Int) ≤ (heap.getSize : Int) := by
    by_contra hgt
    exact hacc (hiff hgt)
  have hM : (UINT32_MOD : Int) = 4294967296 := by unfold UINT32_MOD; rfl
  have hSM : (SIZE_MOD : Int) = 4294967296 := by unfold SIZE_MOD SIZE_BITS; norm_num
  have ho32 := to_uint32_of_nonneg o ho (by rw [hM]; rw [hSM] at hlt; omega)
  have hs32 := to_uint32_of_nonneg buffers.hor_stride hh0 (by rw [hM]; omega)
  have hv32 := to_uint32_of_nonneg buffers.ver_stride hv0 (by rw [hM]; omega)
  have hend : (Buffer.new buffers o).frameEnd g
      = o + ((g buffers.format).2.getScanlineSize buffers.hor_stride : Int)
          * buffers.ver_stride := by
    simp only [Buffer.frameEnd, Buffer.new, hhs, hvs, ne_eq, not_false_eq_true, if_true]
    rw [ho32, hs32, hv32]
  rw [hend, ← hF]
  exact hle

/-! ## Server-side destruction of an attached overlay source -/

theorem World.serverDestroy_overlay (W : World) (p : Nat) (s : OverlaySource) (ov : overlay_t)
    (hp : W.layer.mSource = some p)
    (hs : W.sources[p]? = some (Source.overlay s)) (hov : s.mOverlay = some ov) :
    World.serverDestroy W p =
      { W with
        layer := { W.layer with mSource := none }
        sources := W.sources.set p (Source.overlay { s with mOverlay := none })
        overlayCalls := W.overlayCalls ++ [OverlayCall.destroyOverlay ov] } := by
  simp [World.serverDestroy, hs, OverlaySource.serverDestroy, OverlaySource.destroyOverlay, hov,
    LayerBuffer.clearSource, hp]

/-- C15: when the overlay source at `p` owns a plane and is the source attached
to the layer, `serverDestroy` on it leaves the layer without source, nulls the
handle of the source, and makes exactly one device call, `destroyOverlay` on
that plane; the destructor of the source adds no further call. -/
theorem serverDestroy_attached (W : World) (p : Nat) (s : OverlaySource) (ov : overlay_t)
    (hp : W.layer.mSource = some p) (hs : W.sources[p]? = some (Source.overlay s))
    (hov : s.mOverlay = some ov) :
    W.layer.getSource = some p ∧
    (World.serverDestroy W p).layer.getSource = none ∧
    (World.serverDestroy W p).sources[p]?
      = some (Source.overlay { s with mOverlay := none }) ∧
    (World.serverDestroy W p).overlayCalls
      = W.overlayCalls ++ [OverlayCall.destroyOverlay ov] ∧
    OverlaySource.destructor { s with mOverlay := none } (World.serverDestroy W p).overlayCalls
      = W.overlayCalls ++ [OverlayCall.destroyOverlay ov] := by
  have hlt : p < W.sources.length := by
    rcases List.getElem?_eq_some.mp hs with ⟨hlt, _⟩
    exact hlt
  rw [World.serverDestroy_overlay W p s ov hp hs hov]
  refine ⟨hp, rfl, ?_, rfl, ?_⟩
  · exact List.getElem?_set_self hlt
  · simp [OverlaySource.destructor]

/-- Witness of C15 at `overlayWorld`: `serverDestroy` on the attached source at
address 0 detaches it and destroys `samplePlane`. -/
theorem serverDestroy_attached_witness :
    overlayWorld.layer.mSource = some 0 ∧
    overlayWorld.sources[0]? = some (Source.overlay sampleOverlaySource) ∧
    sampleOverlaySource.mOverlay = some samplePlane ∧
    (World.serverDestroy overlayWorld 0).layer.getSource = none ∧
    (World.serverDestroy overlayWorld 0).overlayCalls
      = overlayWorld.overlayCalls ++ [OverlayCall.destroyOverlay samplePlane] :=
  ⟨by decide, by decide, by decide,
   (serverDestroy_attached overlayWorld 0 sampleOverlaySource samplePlane
      (by decide) (by decide) (by decide)).2.1,
   (serverDestroy_attached overlayWorld 0 sampleOverlaySource samplePlane
      (by decide) (by decide) (by decide)).2.2.2.1⟩

/-! ## Unregistering with an overlay source attached -/

theorem unregisterBuffers_overlay (W : World) (p : Nat) (s : OverlaySource)
    (hp : W.layer.mSource = some p) (hs : W.sources[p]? = some (Source.overlay s)) :
    LayerBuffer.unregisterBuffers W
      = World.decStrong { W with layer := { W.layer with mSource := none } } p := by
  simp [LayerBuffer.unregisterBuffers, LayerBuffer.clearSource, hp, Source.unregisterBuffers, hs]

/-- C16, as amended: when the overlay source at `p` owns a plane and is attached,
the surface-level `unregisterBuffers` leaves the layer without source and does
not touch the source object: its handle is not nulled. While the overlay
channel still holds the source, no device call is made; the plane is released
afterwards, by `destroyOverlay` or, when the channel is released, by the
destructor, each of which invokes the device's `destroyOverlay` on it. When
no channel holds the source, the local reference of `unregisterBuffers` is the
last one and the destructor invokes the device's `destroyOverlay` on the plane
before the call returns. -/
theorem unregisterBuffers_keeps_plane (W : World) (p : Nat) (s : OverlaySource)
    (ov : overlay_t) (hp : W.layer.mSource = some p)
    (hs : W.sources[p]? = some (Source.overlay s)) (hov : s.mOverlay = some ov)
    (hdev : s.mOverlayDevice = true) :
    (LayerBuffer.unregisterBuffers W).layer.getSource = none ∧
    (LayerBuffer.unregisterBuffers W).sources[p]? = some (Source.overlay s) ∧
    (p ∈ W.channels →
      (LayerBuffer.unregisterBuffers W).overlayCalls = W.overlayCalls ∧
      (World.destroyOverlay (LayerBuffer.unregisterBuffers W) p).overlayCalls
        = W.overlayCalls ++ [OverlayCall.destroyOverlay ov] ∧
      (World.releaseChannel (LayerBuffer.unregisterBuffers W) p).overlayCalls
        = W.overlayCalls ++ [OverlayCall.destroyOverlay ov]) ∧
    (p ∉ W.channels →
      (LayerBuffer.unregisterBuffers W).overlayCalls
        = W.overlayCalls ++ [OverlayCall.destroyOverlay ov]) := by
  have hun := unregisterBuffers_overlay W p s hp hs
  have hdf := World.decStrong_fields { W with layer := { W.layer with mSource := none } } p
  have hdes : ∀ calls : List OverlayCall,
      s.destructor calls = calls ++ [OverlayCall.destroyOverlay ov] := by
    intro calls
    simp [OverlaySource.destructor, hov, hdev]
  refine ⟨?_, ?_, ?_, ?_⟩
  · rw [hun, LayerBuffer.getSource, hdf.1]
  · rw [hun, hdf.2.1]
    exact hs
  · intro hc
    have hkeep : LayerBuffer.unregisterBuffers W
        = { W with layer := { W.layer with mSource := none } } := by
      rw [hun]
      exact World.decStrong_of_channel _ p hc
    rw [hkeep]
    refine ⟨rfl, ?_, ?_⟩
    · simp [World.destroyOverlay, hs, OverlaySource.destroyOverlay, hov]
    · have hnot : p ∉ List.filter (fun q => decide (q ≠ p)) W.channels := by
        simp [List.mem_filter]
      have hlast := World.decStrong_last
        { layer := { W.layer with mSource := none }, sources := W.sources,
          overlayCalls := W.overlayCalls,
          channels := List.filter (fun q => decide (q ≠ p)) W.channels }
        p s (by simp) hnot hs
      have hrel : World.releaseChannel { W with layer := { W.layer with mSource := none } } p
          = World.decStrong
              { layer := { W.layer with mSource := none }, sources := W.sources,
                overlayCalls := W.overlayCalls,
                channels := List.filter (fun q => decide (q ≠ p)) W.channels } p := by
        simp [World.releaseChannel, hc]
      rw [hrel, hlast]
      exact hdes _
  · intro hc
    have hlast := World.decStrong_last { W with layer := { W.layer with mSource := none } }
      p s (by simp) hc hs
    rw [hun, hlast]
    exact hdes _

/-- Witness of C16 as amended: in `overlayWorld` the channel holds the source at
address 0 and `unregisterBuffers` makes no device call; in `orphanWorld` no
channel holds it and `unregisterBuffers` destroys `samplePlane`. -/
theorem unregisterBuffers_keeps_plane_witness :
    (overlayWorld.layer.mSource = some 0 ∧ 0 ∈ overlayWorld.channels ∧
      (LayerBuffer.unregisterBuffers overlayWorld).layer.getSource = none ∧
      (LayerBuffer.unregisterBuffers overlayWorld).overlayCalls = overlayWorld.overlayCalls) ∧
    (orphanWorld.layer.mSource = some 0 ∧ 0 ∉ orphanWorld.channels ∧
      (LayerBuffer.unregisterBuffers orphanWorld).overlayCalls
        = orphanWorld.overlayCalls ++ [OverlayCall.destroyOverlay samplePlane]) :=
  ⟨⟨by decide, by decide,
    (unregisterBuffers_keeps_plane overlayWorld 0 sampleOverlaySource samplePlane
      (by decide) (by decide) (by decide) (by decide)).1,
    ((unregisterBuffers_keeps_plane overlayWorld 0 sampleOverlaySource samplePlane
      (by decide) (by decide) (by decide) (by decide)).2.2.1 (by decide)).1⟩,
   ⟨by decide, by decide,
    (unregisterBuffers_keeps_plane orphanWorld 0 sampleOverlaySource samplePlane
      (by decide) (by decide) (by decide) (by decide)).2.2.2 (by decide)⟩⟩

/-- Counterexample to C16 as stated: in `overlayWorld` the overlay source at
address 0 is attached and owns `samplePlane`; after the surface-level
`unregisterBuffers` the layer has no source, yet the source still holds the
plane and the device trace contains no `destroyOverlay`. -/
theorem unregisterBuffers_overlay_not_destroyed :
    overlayWorld.layer.mSource = some 0 ∧
    overlayWorld.channels = [0] ∧
    overlayWorld.sources[0]? = some (Source.overlay sampleOverlaySource) ∧
    sampleOverlaySource.mOverlay = some samplePlane ∧
    (LayerBuffer.unregisterBuffers overlayWorld).layer.getSource = none ∧
    (LayerBuffer.unregisterBuffers overlayWorld).sources[0]?
      = some (Source.overlay sampleOverlaySource) ∧
    destroyCalls (LayerBuffer.unregisterBuffers overlayWorld).overlayCalls = [] := by
  decide

/-! ## The destroyed state -/

theorem OverlayOp.run_destroyed (op : OverlayOp) (st : OverlayState)
    (h : st.1.mOverlay = none) :
    (op.run st).1.mOverlay = none ∧ (op.run st).2.2 = st.2.2 := by
  cases op with
  | onTransaction =>
    by_cases hs : st.2.1.currentSequence = st.2.1.drawingSequence
    · simp [OverlayOp.run, OverlaySource.onTransaction, hs, h]
    · simp [OverlayOp.run, OverlaySource.onTransaction, hs, h]
  | onVisibilityResolved => simp [OverlayOp.run, OverlaySource.onVisibilityResolved, h]
  | destroyOverlay => simp [OverlayOp.run, OverlaySource.destroyOverlay, h]
  | serverDestroy =>
    simp [OverlayOp.run, OverlaySource.serverDestroy, OverlaySource.destroyOverlay, h]
  | setLayer L => exact ⟨h, rfl⟩

theorem runOps_destroyed (ops : List OverlayOp) (st : OverlayState)
    (h : st.1.mOverlay = none) :
    (runOps ops st).1.mOverlay = none ∧ (runOps ops st).2.2 = st.2.2 := by
  induction ops generalizing st with
  | nil => exact ⟨h, rfl⟩
  | cons op ops ih =>
    obtain ⟨h1, h2⟩ := OverlayOp.run_destroyed op st h
    obtain ⟨h3, h4⟩ := ih (op.run st) h1
    exact ⟨h3, h4.trans h2⟩

/-- C17: once the handle of an overlay source is null, after any sequence of
`onTransaction`, `onVisibilityResolved`, `destroyOverlay` and `serverDestroy`
calls (and changes of the layer in between) the handle is still null and the
device trace is as it was: no `setPosition`, `setParameter` or `destroyOverlay`
was issued; and the destructor run after the sequence issues none either. -/
theorem destroyed_is_terminal (s : OverlaySource) (L : LayerBuffer) (calls : List OverlayCall)
    (ops : List OverlayOp) (h : s.mOverlay = none) :
    (runOps ops (s, L, calls)).1.mOverlay = none ∧
    (runOps ops (s, L, calls)).2.2 = calls ∧
    (runOps ops (s, L, calls)).1.destructor (runOps ops (s, L, calls)).2.2 = calls := by
  obtain ⟨h1, h2⟩ := runOps_destroyed ops (s, L, calls) h
  refine ⟨h1, h2, ?_⟩
  rw [h2]
  simp [OverlaySource.destructor, h1]

/-- Witness of C17: `flaggedSource` with its plane destroyed goes through a
transaction, a visibility pass and both teardown calls without a device call. -/
theorem destroyed_is_terminal_witness :
    (flaggedSource.destroyOverlay []).1.mOverlay = none ∧
    (runOps [OverlayOp.onTransaction, OverlayOp.onVisibilityResolved,
        OverlayOp.destroyOverlay, OverlayOp.serverDestroy]
      ((flaggedSource.destroyOverlay []).1, movedLayer,
        (flaggedSource.destroyOverlay []).2)).2.2
      = (flaggedSource.destroyOverlay []).2 :=
  ⟨by decide,
   (destroyed_is_terminal (flaggedSource.destroyOverlay []).1 movedLayer
      (flaggedSource.destroyOverlay []).2
      [OverlayOp.onTransaction, OverlayOp.onVisibilityResolved,
        OverlayOp.destroyOverlay, OverlayOp.serverDestroy] (by decide)).2.1⟩

/-! ## Unregistering a buffer source -/

/-- C18: `BufferSource.unregisterBuffers` clears the heap reference and the
current frame and invalidates the layer once; applied a second time it leaves
the source as the first application left it; and after it a post at any
offset leaves the source (without frame) and the layer as they are. -/
theorem BufferSource_unregister_idempotent (s : BufferSource) (L L1 L2 : LayerBuffer)
    (o : Int) :
    (s.unregisterBuffers L).1.mBufferHeap.heap = none ∧
    (s.unregisterBuffers L).1.getBuffer = none ∧
    (s.unregisterBuffers L).2 = L.invalidate ∧
    L.invalidate.invalidations = L.invalidations + 1 ∧
    ((s.unregisterBuffers L).1.unregisterBuffers L1).1 = (s.unregisterBuffers L).1 ∧
    (s.unregisterBuffers L).1.postBuffer L2 o = ((s.unregisterBuffers L).1, L2) ∧
    ((s.unregisterBuffers L).1.postBuffer L2 o).1.getBuffer = none := by
  have hnone : (s.unregisterBuffers L).1.mBufferHeap.heap = none := rfl
  have hpost := BufferSource.postBuffer_null_heap (s.unregisterBuffers L).1 L2 o hnone
  refine ⟨rfl, rfl, rfl, rfl, rfl, hpost, ?_⟩
  rw [hpost]
  rfl

/-! ## Server-side destruction of a detached overlay source -/

/-- The method `serverDestroy` clears the source pointer of the layer without
looking at what it points to. For C19: in `replacedWorld` the buffer source at
address 1 is attached and the overlay source at address 0 is not;
`serverDestroy` on the overlay source leaves the layer without source. -/
theorem serverDestroy_detaches_other_source :
    replacedWorld.layer.mSource = some 1 ∧
    replacedWorld.sources[1]? = some (Source.buffer sampleSource) ∧
    replacedWorld.sources[0]? = some (Source.overlay sampleOverlaySource) ∧
    (World.serverDestroy replacedWorld 0).layer.mSource = none ∧
    (World.serverDestroy replacedWorld 0).layer.mSource ≠ replacedWorld.layer.mSource := by
  decide

/-- Whatever source is attached, `serverDestroy` on an overlay source in the
store leaves the layer without source. -/
theorem World.serverDestroy_clears (W : World) (p : Nat) (s : OverlaySource)
    (hs : W.sources[p]? = some (Source.overlay s)) :
    (World.serverDestroy W p).layer.mSource = none := by
  simp [World.serverDestroy, hs, OverlaySource.serverDestroy, LayerBuffer.clearSource]

/-! ## The race between teardown and the visibility pass -/

theorem liveTrace_concat (calls : List OverlayCall) (c : OverlayCall) :
    liveTrace (calls ++ [c]) ↔
      (match c.plane with
       | some overlay => OverlayCall.destroyOverlay overlay ∉ calls
       | none => True) ∧ liveTrace calls := by
  unfold liveTrace
  rw [List.reverse_concat]
  cases hc : c.plane with
  | none => simp [liveNewestFirst, hc]
  | some overlay => simp [liveNewestFirst, hc, List.mem_reverse]

/-- The compositor thread alone, run through its five steps, does what
`OverlaySource.onVisibilityResolved` does. -/
theorem Race.compositor_alone (s : OverlaySource) (L : LayerBuffer) (calls : List OverlayCall)
    (triggers : List TeardownTrigger) :
    Race.run [true, true, true, true, true] (Race.start s L calls triggers)
      = { source := (s.onVisibilityResolved L calls).1, layer := L,
          calls := (s.onVisibilityResolved L calls).2, pc := VisibilityPc.returned,
          todo := TeardownTrigger.program triggers } := by
  cases hov : s.mOverlay with
  | none =>
    simp [Race.run, Race.start, Race.compositorStep, OverlaySource.onVisibilityResolved, hov]
  | some overlay =>
    cases hf : s.mVisibilityChanged with
    | false =>
      simp [Race.run, Race.start, Race.compositorStep, OverlaySource.onVisibilityResolved, hov, hf]
    | true =>
      simp [Race.run, Race.start, Race.compositorStep, OverlaySource.onVisibilityResolved, hov, hf]

/-- The teardown thread alone does what `destroyOverlay` and `serverDestroy` do. -/
theorem Race.teardown_alone (s : OverlaySource) (L : LayerBuffer) (calls : List OverlayCall) :
    Race.run [false] (Race.start s L calls [TeardownTrigger.destroyOverlay])
      = { source := (s.destroyOverlay calls).1, layer := L, calls := (s.destroyOverlay calls).2,
          pc := VisibilityPc.testOverlay, todo := [] } ∧
    Race.run [false, false] (Race.start s L calls [TeardownTrigger.serverDestroy])
      = { source := (s.serverDestroy L calls).1, layer := (s.serverDestroy L calls).2.1,
          calls := (s.serverDestroy L calls).2.2, pc := VisibilityPc.testOverlay, todo := [] } := by
  constructor
  · rfl
  · rfl

theorem Race.inv_compositorStep (s0 : OverlaySource) (calls0 : List OverlayCall) (r : Race)
    (h : Race.inv s0 calls0 r) : Race.inv s0 calls0 r.compositorStep := by
  obtain ⟨h1, h2, h3, h4, h5⟩ := h
  unfold Race.compositorStep
  cases hpc : r.pc with
  | testOverlay =>
    cases hov : r.source.mOverlay with
    | none => exact ⟨h1, h2, h3, h4, h5⟩
    | some overlay => exact ⟨h1, h2, h3, h4, h5⟩
  | testChanged =>
    simp only
    split_ifs
    · exact ⟨h1, h2, h3, h4, h5⟩
    · exact ⟨h1, h2, h3, h4, h5⟩
  | clearChanged => exact ⟨h1, h2, h3, h4, h5⟩
  | readBounds => exact ⟨h1, h2, h3, h4, h5⟩
  | returned => exact ⟨h1, h2, h3, h4, h5⟩
  | lockedBlock x y w h =>
    cases hov : r.source.mOverlay with
    | none => exact ⟨h1, h2, h3, h4, h5⟩
    | some overlay =>
      have hfresh := h5 overlay hov
      refine ⟨?_, h2, h3, ?_, ?_⟩
      · simp only [destroyCalls_append]
        simpa [destroyCalls, OverlayCall.isDestroy] using h1
      · have e : r.calls ++ [OverlayCall.setPosition overlay x y w h,
            OverlayCall.setParameter overlay OverlayParam.OVERLAY_TRANSFORM r.layer.orientation]
            = (r.calls ++ [OverlayCall.setPosition overlay x y w h]) ++
              [OverlayCall.setParameter overlay OverlayParam.OVERLAY_TRANSFORM
                r.layer.orientation] := by simp
        simp only [e]
        rw [liveTrace_concat, liveTrace_concat]
        simp [OverlayCall.plane, hfresh, h4]
      · intro ov hov2
        simp only at hov2
        have := h5 ov hov2
        simp [this]

theorem Race.inv_teardownStep (s0 : OverlaySource) (calls0 : List OverlayCall) (r : Race)
    (h : Race.inv s0 calls0 r) : Race.inv s0 calls0 r.teardownStep := by
  obtain ⟨h1, h2, h3, h4, h5⟩ := h
  unfold Race.teardownStep
  cases htodo : r.todo with
  | nil => exact ⟨h1, h2, h3, h4, h5⟩
  | cons t rest =>
    cases t with
    | clearSource => exact ⟨h1, h2, h3, h4, h5⟩
    | destroyLocked =>
      cases hov : r.source.mOverlay with
      | none =>
        have e : r.source.destroyOverlay r.calls = (r.source, r.calls) := by
          simp [OverlaySource.destroyOverlay, hov]
        simp only [e]
        exact ⟨h1, h2, h3, h4, h5⟩
      | some overlay =>
        have e : r.source.destroyOverlay r.calls
            = ({ r.source with mOverlay := none },
                r.calls ++ [OverlayCall.destroyOverlay overlay]) := by
          simp [OverlaySource.destroyOverlay, hov]
        have hfresh := h5 overlay hov
        simp only [e]
        refine ⟨?_, h2, Or.inl rfl, ?_, ?_⟩
        · have ho : r.source.owed = [OverlayCall.destroyOverlay overlay] := by
            simp [OverlaySource.owed, hov]
          rw [← h1, ho]
          simp [destroyCalls, OverlayCall.isDestroy, OverlaySource.owed]
        · rw [liveTrace_concat]
          simp [OverlayCall.plane, hfresh, h4]
        · intro ov hov2
          simp at hov2

theorem Race.inv_run (s0 : OverlaySource) (calls0 : List OverlayCall) (schedule : List Bool)
    (r : Race) (h : Race.inv s0 calls0 r) : Race.inv s0 calls0 (Race.run schedule r) := by
  induction schedule generalizing r with
  | nil => exact h
  | cons b schedule ih =>
    cases b with
    | true => exact ih _ (Race.inv_compositorStep s0 calls0 r h)
    | false => exact ih _ (Race.inv_teardownStep s0 calls0 r h)

theorem TeardownTrigger.program_mem (triggers : List TeardownTrigger) :
    TeardownStep.destroyLocked ∈ TeardownTrigger.program triggers ↔
      (TeardownTrigger.destroyOverlay ∈ triggers ∨ TeardownTrigger.serverDestroy ∈ triggers) := by
  induction triggers with
  | nil => simp [TeardownTrigger.program]
  | cons t ts ih =>
    cases t with
    | destroyOverlay => simp [TeardownTrigger.program, TeardownTrigger.steps]
    | serverDestroy => simp [TeardownTrigger.program, TeardownTrigger.steps]
    | surfaceDestruction => simp [TeardownTrigger.program, TeardownTrigger.steps, ih]

theorem Race.compositorStep_frame (r : Race) :
    r.compositorStep.source.mOverlay = r.source.mOverlay ∧ r.compositorStep.todo = r.todo := by
  unfold Race.compositorStep
  cases hpc : r.pc with
  | testOverlay =>
    cases hov : r.source.mOverlay with
    | none => simp [hov]
    | some overlay => simp [hov]
  | testChanged =>
    simp only
    split_ifs
    · exact ⟨rfl, rfl⟩
    · exact ⟨rfl, rfl⟩
  | clearChanged => exact ⟨rfl, rfl⟩
  | readBounds => exact ⟨rfl, rfl⟩
  | returned => exact ⟨rfl, rfl⟩
  | lockedBlock x y w h =>
    cases hov : r.source.mOverlay with
    | none => simp [hov]
    | some overlay => simp [hov]

/-- While a locked destroy is still ahead or the handle is already null, this
stays so; once the teardown thread has finished, the handle is null. -/
theorem Race.pending_run (schedule : List Bool) (r : Race)
    (h : r.source.mOverlay = none ∨ TeardownStep.destroyLocked ∈ r.todo) :
    (Race.run schedule r).source.mOverlay = none ∨
      TeardownStep.destroyLocked ∈ (Race.run schedule r).todo := by
  induction schedule generalizing r with
  | nil => exact h
  | cons b schedule ih =>
    cases b with
    | true =>
      apply ih
      obtain ⟨h1, h2⟩ := Race.compositorStep_frame r
      rw [h1, h2]
      exact h
    | false =>
      apply ih
      unfold Race.teardownStep
      cases htodo : r.todo with
      | nil =>
        rw [htodo] at h
        left
        simpa using h
      | cons t rest =>
        cases t with
        | clearSource =>
          rw [htodo] at h
          simpa using h
        | destroyLocked =>
          left
          cases hov : r.source.mOverlay with
          | none => simp [OverlaySource.destroyOverlay, hov]
          | some overlay => simp [OverlaySource.destroyOverlay, hov]

/-- Without a locked destroy in the program the handle is never written. -/
theorem Race.keep_run (schedule : List Bool) (r : Race)
    (h : TeardownStep.destroyLocked ∉ r.todo) :
    (Race.run schedule r).source.mOverlay = r.source.mOverlay := by
  induction schedule generalizing r with
  | nil => rfl
  | cons b schedule ih =>
    cases b with
    | true =>
      obtain ⟨h1, h2⟩ := Race.compositorStep_frame r
      have := ih r.compositorStep (by rw [h2]; exact h)
      simp only [Race.run]
      rw [this, h1]
    | false =>
      have hstep : r.teardownStep.source.mOverlay = r.source.mOverlay ∧
          TeardownStep.destroyLocked ∉ r.teardownStep.todo := by
        unfold Race.teardownStep
        cases htodo : r.todo with
        | nil =>
          refine ⟨rfl, ?_⟩
          show TeardownStep.destroyLocked ∉ r.todo
          exact h
        | cons t rest =>
          rw [htodo] at h
          cases t with
          | clearSource => exact ⟨rfl, fun hm => h (List.mem_cons_of_mem _ hm)⟩
          | destroyLocked => exact absurd (List.mem_cons_self _ _) h
      have := ih r.teardownStep hstep.2
      simp only [Race.run]
      rw [this, hstep.1]

theorem Race.inv_start (s : OverlaySource) (L : LayerBuffer) (calls : List OverlayCall)
    (triggers : List TeardownTrigger) (hlive : liveTrace calls)
    (hfresh : ∀ overlay, s.mOverlay = some overlay →
      OverlayCall.destroyOverlay overlay ∉ calls) :
    Race.inv s calls (Race.start s L calls triggers) :=
  ⟨rfl, rfl, Or.inr rfl, hlive, hfresh⟩

/-- C11, as amended: the compositor is inside `onVisibilityResolved` while a
teardown thread runs any sequence of `destroyOverlay`, `serverDestroy` and
surface destructions on the same source. Under every schedule, at every
moment: no device call acts on a plane that was destroyed before (no
`setPosition` or `setParameter` after the `destroyOverlay`, no second
`destroyOverlay`), and the device's `destroyOverlay` has been invoked at most
once, on the plane the source held. When both threads have finished and the
teardown contained a `destroyOverlay` or a `serverDestroy`, the handle is null.
A surface destruction alone never nulls the handle: the plane is then
destroyed by the destructor, which runs after both threads have finished and
brings the destroy calls to exactly the one owed. -/
theorem race_teardown_visibility (s : OverlaySource) (L : LayerBuffer)
    (calls : List OverlayCall) (triggers : List TeardownTrigger) (schedule : List Bool)
    (hdev : s.mOverlay.isSome = true → s.mOverlayDevice = true)
    (hlive : liveTrace calls)
    (hfresh : ∀ overlay, s.mOverlay = some overlay →
      OverlayCall.destroyOverlay overlay ∉ calls) :
    liveTrace (Race.run schedule (Race.start s L calls triggers)).calls ∧
    (destroyCalls (Race.run schedule (Race.start s L calls triggers)).calls = destroyCalls calls ∨
      ∃ overlay, s.mOverlay = some overlay ∧
        destroyCalls (Race.run schedule (Race.start s L calls triggers)).calls
          = destroyCalls calls ++ [OverlayCall.destroyOverlay overlay]) ∧
    ((Race.run schedule (Race.start s L calls triggers)).finished = true →
      (TeardownTrigger.destroyOverlay ∈ triggers ∨ TeardownTrigger.serverDestroy ∈ triggers) →
      (Race.run schedule (Race.start s L calls triggers)).source.mOverlay = none) ∧
    (¬ (TeardownTrigger.destroyOverlay ∈ triggers ∨ TeardownTrigger.serverDestroy ∈ triggers) →
      (Race.run schedule (Race.start s L calls triggers)).source.mOverlay = s.mOverlay) ∧
    liveTrace ((Race.run schedule (Race.start s L calls triggers)).source.destructor
      (Race.run schedule (Race.start s L calls triggers)).calls) ∧
    destroyCalls ((Race.run schedule (Race.start s L calls triggers)).source.destructor
      (Race.run schedule (Race.start s L calls triggers)).calls)
      = destroyCalls calls ++ s.owed := by
  have hinv := Race.inv_run s calls schedule _ (Race.inv_start s L calls triggers hlive hfresh)
  have hpend := Race.pending_run schedule (Race.start s L calls triggers)
  have hkeep := Race.keep_run schedule (Race.start s L calls triggers)
  generalize Race.run schedule (Race.start s L calls triggers) = r at hinv hpend hkeep ⊢
  obtain ⟨h1, h2, h3, h4, h5⟩ := hinv
  have hdevr : r.source.mOverlay.isSome = true → r.source.mOverlayDevice = true := by
    intro hsome
    rw [h2]
    apply hdev
    rcases h3 with h3 | h3
    · rw [h3] at hsome; exact absurd hsome (by simp)
    · rw [← h3]; exact hsome
  refine ⟨h4, ?_, ?_, ?_, ?_, ?_⟩
  · rcases h3 with h3 | h3
    · have ho : r.source.owed = [] := by simp [OverlaySource.owed, h3]
      rw [ho, List.append_nil] at h1
      cases hs : s.mOverlay with
      | none =>
        left
        rw [h1]
        simp [OverlaySource.owed, hs]
      | some overlay =>
        right
        refine ⟨overlay, rfl, ?_⟩
        rw [h1]
        simp [OverlaySource.owed, hs]
    · left
      have ho : r.source.owed = s.owed := by simp [OverlaySource.owed, h3]
      rw [ho] at h1
      exact List.append_cancel_right h1
  · intro hfin hmem
    have htodo : r.todo = [] := by
      simp [Race.finished] at hfin
      exact hfin.2
    rcases hpend (Or.inr ((TeardownTrigger.program_mem triggers).mpr hmem)) with hp | hp
    · exact hp
    · rw [htodo] at hp
      exact absurd hp (List.not_mem_nil _)
  · intro hno
    exact hkeep (fun hm => hno ((TeardownTrigger.program_mem triggers).mp hm))
  · cases hov : r.source.mOverlay with
    | none =>
      have e : r.source.destructor r.calls = r.calls := by simp [OverlaySource.destructor, hov]
      rw [e]
      exact h4
    | some overlay =>
      have hd := hdevr (by simp [hov])
      have e : r.source.destructor r.calls = r.calls ++ [OverlayCall.destroyOverlay overlay] := by
        simp [OverlaySource.destructor, hov, hd]
      rw [e, liveTrace_concat]
      exact ⟨by simpa [OverlayCall.plane] using h5 overlay hov, h4⟩
  · rw [OverlaySource.destructor_owed r.source r.calls hdevr]
    exact h1

/-- Witness of C11 as amended: `flaggedSource` owns `samplePlane` and has its flag
raised; `serverDestroy` clears the source pointer after the compositor has
tested the flag and destroys the plane after the compositor has read the
bounds. The locked block then finds the handle null: the race ends with the
handle null and a trace in which nothing follows the `destroyOverlay`. -/
theorem race_teardown_visibility_witness :
    (flaggedSource.mOverlay.isSome = true → flaggedSource.mOverlayDevice = true) ∧
    liveTrace [] ∧
    (Race.run [true, true, false, true, true, false, true]
      (Race.start flaggedSource movedAttachedLayer [] [TeardownTrigger.serverDestroy])).finished
      = true ∧
    (Race.run [true, true, false, true, true, false, true]
      (Race.start flaggedSource movedAttachedLayer [] [TeardownTrigger.serverDestroy])).source.mOverlay
      = none ∧
    liveTrace (Race.run [true, true, false, true, true, false, true]
      (Race.start flaggedSource movedAttachedLayer [] [TeardownTrigger.serverDestroy])).calls :=
  ⟨by decide, by decide, by decide,
   (race_teardown_visibility flaggedSource movedAttachedLayer [] [TeardownTrigger.serverDestroy]
      [true, true, false, true, true, false, true] (by decide) (by decide)
      (fun _ _ => List.not_mem_nil _)).2.2.1 (by decide) (by decide),
   (race_teardown_visibility flaggedSource movedAttachedLayer [] [TeardownTrigger.serverDestroy]
      [true, true, false, true, true, false, true] (by decide) (by decide)
      (fun _ _ => List.not_mem_nil _)).1⟩

/-- Counterexample to C11 as stated: the surface is destroyed while the
compositor is inside `onVisibilityResolved` on `flaggedSource`, which owns
`samplePlane`. Surface destruction reaches the source through
`~SurfaceBuffer` and `unregisterBuffers`, which only clears the source
pointer (in `overlayWorld`, where the channel holds the source, it changes
nothing else). Both threads finish, the compositor has pushed the geometry to
the plane, and the handle is still set, not null. -/
theorem surface_destruction_keeps_handle :
    SurfaceBuffer.destructor (some overlayWorld)
      = some { overlayWorld with layer := overlayWorld.layer.clearSource.2 } ∧
    flaggedSource.mOverlay = some samplePlane ∧
    (Race.run [true, true, false, true, true, true]
      (Race.start flaggedSource movedAttachedLayer []
        [TeardownTrigger.surfaceDestruction])).finished = true ∧
    (Race.run [true, true, false, true, true, true]
      (Race.start flaggedSource movedAttachedLayer []
        [TeardownTrigger.surfaceDestruction])).layer.mSource = none ∧
    (Race.run [true, true, false, true, true, true]
      (Race.start flaggedSource movedAttachedLayer []
        [TeardownTrigger.surfaceDestruction])).source.mOverlay = some samplePlane ∧
    (Race.run [true, true, false, true, true, true]
      (Race.start flaggedSource movedAttachedLayer []
        [TeardownTrigger.surfaceDestruction])).source.mOverlay ≠ none := by
  decide

end android
